import Mathlib

/-!
# Conversion of legacy (v1) envelopes to v2 envelopes

A shallow embedding of `plumbing/conversion/tov2.go` and the properties of `ToV2`.

Conventions of the embedding.

* A Go `map[string]V` is an association list with pairwise distinct keys (`GoMap V`).
  A `nil` map and an empty map read the same; where writing to a `nil` map would
  panic (the output tag mapping), the mapping is an `Option` and the write is fallible.
* The Go functions mutate the envelope behind the pointer `v2e`; here every function
  takes the envelope and returns the updated one.
* `int32`, `int64`, `uint64` values are carried as `Int` / `Nat`; the only arithmetic
  on them is the byte extraction of `PutUint64`, written with explicit shifts and `% 256`.
* `float64` values are carried as `Float`.
-/

namespace conversion

/-- A Go `map[string]V`: finitely many entries, no key twice. -/
abbrev GoMap (V : Type) := AList (fun _ : String => V)

/-- The index expression `v, ok := m[key]` on a `map[string]string`: the value and
`true`, or the zero value and `false` when the key is absent. -/
def index2 (m : GoMap String) (key : String) : String × Bool :=
  match m.lookup key with
  | some v => (v, true)
  | none => ("", false)

/-- The index expression `m[key]` on a `map[string]string`: the zero value when the key
is absent. -/
def index1 (m : GoMap String) (key : String) : String :=
  (index2 m key).1

/-! ## The legacy schema (package `events`) -/

namespace events

/-- Modelled from the spec: the generated type `events.UUID` (a pair of 64-bit
unsigned integers) is not part of the sources. -/
structure UUID where
  Low : Nat
  High : Nat

/-- Getter with a nil-safe receiver: an absent UUID reads as 0. -/
def UUID.GetLow : Option UUID → Nat
  | some u => u.Low
  | none => 0

/-- Getter with a nil-safe receiver: an absent UUID reads as 0. -/
def UUID.GetHigh : Option UUID → Nat
  | some u => u.High
  | none => 0

/-- Modelled from the spec: the generated type `events.LogMessage` is not part of the
sources; fields as in the data model. -/
structure LogMessage where
  Message : List UInt8
  MessageType : Int
  AppId : String
  SourceType : String
  SourceInstance : String

/-- Modelled from the spec: the generated type `events.HttpStartStop` is not part of
the sources; fields as in the data model. -/
structure HttpStartStop where
  StartTimestamp : Int
  StopTimestamp : Int
  RequestId : Option UUID
  PeerType : Int
  Method : Int
  Uri : String
  RemoteAddress : String
  UserAgent : String
  StatusCode : Int
  ContentLength : Int
  ApplicationId : Option UUID
  InstanceIndex : Int
  InstanceId : String
  Forwarded : List String

/-- Modelled from the spec: the generated type `events.ValueMetric` is not part of the
sources; fields as in the data model. -/
structure ValueMetric where
  Name : String
  Value : Float
  Unit : String

/-- Modelled from the spec: the generated type `events.CounterEvent` is not part of
the sources; fields as in the data model. -/
structure CounterEvent where
  Name : String
  Total : Nat

/-- Modelled from the spec: the generated type `events.Error` is not part of the
sources; fields as in the data model. -/
structure Error where
  Source : String
  Code : String
  Message : String

/-- Modelled from the spec: the generated type `events.ContainerMetric` is not part
of the sources; fields as in the data model. -/
structure ContainerMetric where
  ApplicationId : String
  InstanceIndex : Int
  CpuPercentage : Float
  MemoryBytes : Nat
  DiskBytes : Nat
  MemoryBytesQuota : Nat
  DiskBytesQuota : Nat

/-- Modelled from the spec: the discriminator values of `events.Envelope_EventType`
are not part of the sources; the six kinds of the data model with their wire numbers. -/
def Envelope_HttpStartStop : Int := 4

/-- Modelled from the spec: discriminator of the LogMessage kind. -/
def Envelope_LogMessage : Int := 5

/-- Modelled from the spec: discriminator of the ValueMetric kind. -/
def Envelope_ValueMetric : Int := 6

/-- Modelled from the spec: discriminator of the CounterEvent kind. -/
def Envelope_CounterEvent : Int := 7

/-- Modelled from the spec: discriminator of the Error kind. -/
def Envelope_Error : Int := 8

/-- Modelled from the spec: discriminator of the ContainerMetric kind. -/
def Envelope_ContainerMetric : Int := 9

/-- Modelled from the spec: first value of the legacy message-type enumeration, read
from an absent LogMessage. -/
def LogMessage_OUT : Int := 1

/-- Modelled from the spec: second value of the legacy message-type enumeration. -/
def LogMessage_ERR : Int := 2

/-- Modelled from the spec: first value of the peer-type enumeration, read from an
absent HttpStartStop. -/
def PeerType_Client : Int := 1

/-- Modelled from the spec: first value of the method enumeration, read from an absent
HttpStartStop. -/
def Method_GET : Int := 1

/-- Modelled from the spec: the generated type `events.Envelope` is not part of the
sources. Header fields and payloads are optional; `Tags` absent is the empty map. -/
structure Envelope where
  Origin : Option String
  EventType : Option Int
  Timestamp : Option Int
  Deployment : Option String
  Job : Option String
  Index : Option String
  Ip : Option String
  Tags : GoMap String
  HttpStartStop : Option HttpStartStop
  LogMessage : Option LogMessage
  ValueMetric : Option ValueMetric
  CounterEvent : Option CounterEvent
  Error : Option Error
  ContainerMetric : Option ContainerMetric

namespace Envelope

def GetOrigin (e : Envelope) : String := e.Origin.getD ""

/-- An absent discriminator reads as the first value of the enumeration. -/
def GetEventType (e : Envelope) : Int := e.EventType.getD Envelope_HttpStartStop

def GetTimestamp (e : Envelope) : Int := e.Timestamp.getD 0

def GetDeployment (e : Envelope) : String := e.Deployment.getD ""

def GetJob (e : Envelope) : String := e.Job.getD ""

def GetIndex (e : Envelope) : String := e.Index.getD ""

def GetIp (e : Envelope) : String := e.Ip.getD ""

def GetTags (e : Envelope) : GoMap String := e.Tags

def GetHttpStartStop (e : Envelope) : Option events.HttpStartStop := e.HttpStartStop

def GetLogMessage (e : Envelope) : Option events.LogMessage := e.LogMessage

def GetValueMetric (e : Envelope) : Option events.ValueMetric := e.ValueMetric

def GetCounterEvent (e : Envelope) : Option events.CounterEvent := e.CounterEvent

def GetError (e : Envelope) : Option events.Error := e.Error

def GetContainerMetric (e : Envelope) : Option events.ContainerMetric := e.ContainerMetric

end Envelope

/-! Getters of the payloads: the receiver may be nil (an absent payload), and then the
getter returns the default of the field. -/

def LogMessage.GetMessage : Option LogMessage → List UInt8
  | some t => t.Message
  | none => []

def LogMessage.GetMessageType : Option LogMessage → Int
  | some t => t.MessageType
  | none => LogMessage_OUT

def LogMessage.GetAppId : Option LogMessage → String
  | some t => t.AppId
  | none => ""

def LogMessage.GetSourceType : Option LogMessage → String
  | some t => t.SourceType
  | none => ""

def LogMessage.GetSourceInstance : Option LogMessage → String
  | some t => t.SourceInstance
  | none => ""

def HttpStartStop.GetStartTimestamp : Option HttpStartStop → Int
  | some t => t.StartTimestamp
  | none => 0

def HttpStartStop.GetStopTimestamp : Option HttpStartStop → Int
  | some t => t.StopTimestamp
  | none => 0

def HttpStartStop.GetRequestId : Option HttpStartStop → Option UUID
  | some t => t.RequestId
  | none => none

def HttpStartStop.GetPeerType : Option HttpStartStop → Int
  | some t => t.PeerType
  | none => PeerType_Client

def HttpStartStop.GetMethod : Option HttpStartStop → Int
  | some t => t.Method
  | none => Method_GET

def HttpStartStop.GetUri : Option HttpStartStop → String
  | some t => t.Uri
  | none => ""

def HttpStartStop.GetRemoteAddress : Option HttpStartStop → String
  | some t => t.RemoteAddress
  | none => ""

def HttpStartStop.GetUserAgent : Option HttpStartStop → String
  | some t => t.UserAgent
  | none => ""

def HttpStartStop.GetStatusCode : Option HttpStartStop → Int
  | some t => t.StatusCode
  | none => 0

def HttpStartStop.GetContentLength : Option HttpStartStop → Int
  | some t => t.ContentLength
  | none => 0

def HttpStartStop.GetApplicationId : Option HttpStartStop → Option UUID
  | some t => t.ApplicationId
  | none => none

def HttpStartStop.GetInstanceIndex : Option HttpStartStop → Int
  | some t => t.InstanceIndex
  | none => 0

def HttpStartStop.GetInstanceId : Option HttpStartStop → String
  | some t => t.InstanceId
  | none => ""

def HttpStartStop.GetForwarded : Option HttpStartStop → List String
  | some t => t.Forwarded
  | none => []

def ValueMetric.GetName : Option ValueMetric → String
  | some t => t.Name
  | none => ""

def ValueMetric.GetValue : Option ValueMetric → Float
  | some t => t.Value
  | none => 0

def ValueMetric.GetUnit : Option ValueMetric → String
  | some t => t.Unit
  | none => ""

def CounterEvent.GetName : Option CounterEvent → String
  | some t => t.Name
  | none => ""

def CounterEvent.GetTotal : Option CounterEvent → Nat
  | some t => t.Total
  | none => 0

def Error.GetSource : Option Error → String
  | some t => t.Source
  | none => ""

def Error.GetCode : Option Error → String
  | some t => t.Code
  | none => ""

def Error.GetMessage : Option Error → String
  | some t => t.Message
  | none => ""

def ContainerMetric.GetApplicationId : Option ContainerMetric → String
  | some t => t.ApplicationId
  | none => ""

def ContainerMetric.GetInstanceIndex : Option ContainerMetric → Int
  | some t => t.InstanceIndex
  | none => 0

def ContainerMetric.GetCpuPercentage : Option ContainerMetric → Float
  | some t => t.CpuPercentage
  | none => 0

def ContainerMetric.GetMemoryBytes : Option ContainerMetric → Nat
  | some t => t.MemoryBytes
  | none => 0

def ContainerMetric.GetDiskBytes : Option ContainerMetric → Nat
  | some t => t.DiskBytes
  | none => 0

def ContainerMetric.GetMemoryBytesQuota : Option ContainerMetric → Nat
  | some t => t.MemoryBytesQuota
  | none => 0

def ContainerMetric.GetDiskBytesQuota : Option ContainerMetric → Nat
  | some t => t.DiskBytesQuota
  | none => 0

end events

/-! ## The name tables of the generated enumerations -/

/-- Modelled from the spec: the name tables of the generated enumerations
(`Envelope_EventType_name`, `LogMessage_MessageType_name`, `PeerType_name`,
`Method_name` of the legacy schema and `Log_Type_value` of the new one) are not part of
the sources; the conversion takes them as a parameter. -/
structure EnumTables where
  Envelope_EventType_name : Int → Option String
  LogMessage_MessageType_name : Int → Option String
  PeerType_name : Int → Option String
  Method_name : Int → Option String
  Log_Type_value : String → Option Int

/-- The `String()` method of a generated enumeration: the name of the table, or the
decimal number when the table has none. -/
def EnumName (table : Int → Option String) (v : Int) : String :=
  match table v with
  | some s => s
  | none => toString v

/-- Modelled from the spec: tables with the symbolic names the data model lists (the six
event kinds, the message types OUT and ERR of both schemas); the names of the peer types
and of the methods are not in the spec, and the table gives the first ones of the legacy
schema. The theorems hold for every table; this one serves the concrete envelopes. -/
def schemaTables : EnumTables where
  Envelope_EventType_name := fun v =>
    if v = 4 then some "HttpStartStop" else if v = 5 then some "LogMessage"
    else if v = 6 then some "ValueMetric" else if v = 7 then some "CounterEvent"
    else if v = 8 then some "Error" else if v = 9 then some "ContainerMetric" else none
  LogMessage_MessageType_name := fun v =>
    if v = 1 then some "OUT" else if v = 2 then some "ERR" else none
  PeerType_name := fun v =>
    if v = 1 then some "Client" else if v = 2 then some "Server" else none
  Method_name := fun v =>
    if v = 1 then some "GET" else if v = 2 then some "POST" else if v = 3 then some "PUT"
    else if v = 4 then some "DELETE" else if v = 5 then some "HEAD" else none
  Log_Type_value := fun s =>
    if s = "OUT" then some 0 else if s = "ERR" then some 1 else none

/-! ## The new schema (package `v2`) -/

namespace v2

/-- Modelled from the spec: the generated type `v2.Value`, a oneof of text, integer
and decimal. -/
inductive Value where
  | Text (s : String)
  | Integer (i : Int)
  | Decimal (f : Float)

/-- Modelled from the spec: the generated type `v2.Log`. -/
structure Log where
  Payload : List UInt8
  LogType : Int

/-- Modelled from the spec: first value of the new Log type enumeration. -/
def Log_OUT : Int := 0

/-- Modelled from the spec: second value of the new Log type enumeration. -/
def Log_ERR : Int := 1

/-- Modelled from the spec: the oneof value of `v2.Counter`. -/
inductive Counter_Value where
  | Delta (n : Nat)
  | Total (n : Nat)

/-- Modelled from the spec: the generated type `v2.Counter`. -/
structure Counter where
  Name : String
  Value : Option Counter_Value

/-- Modelled from the spec: the generated type `v2.GaugeValue`. -/
structure GaugeValue where
  Unit : String
  Value : Float

/-- Modelled from the spec: the generated type `v2.Gauge`. -/
structure Gauge where
  Metrics : GoMap GaugeValue

/-- Modelled from the spec: the generated type `v2.Timer`. -/
structure Timer where
  Name : String
  Start : Int
  Stop : Int

/-- Modelled from the spec: the payload oneof of `v2.Envelope`. -/
inductive Message where
  | Envelope_Log (Log : Log)
  | Envelope_Counter (Counter : Counter)
  | Envelope_Gauge (Gauge : Gauge)
  | Envelope_Timer (Timer : Timer)

/-- Modelled from the spec: the generated type `v2.Envelope`. `DeprecatedTags = none`
is the nil map, `Message = none` the unset oneof. -/
structure Envelope where
  Timestamp : Int
  SourceId : String
  InstanceId : String
  DeprecatedTags : Option (GoMap Value)
  Message : Option Message

end v2

/-! ## Formatting -/

/-- The values `setV2Tag` is called with (its parameter is `interface{}`). -/
inductive Scalar where
  | str (s : String)
  | int32 (i : Int)
  | int64 (i : Int)

/-- The rendering `fmt.Sprintf("%v", value)`: a string as it is, an integer in decimal. -/
def Sprintf_v : Scalar → String
  | .str s => s
  | .int32 i => toString i
  | .int64 i => toString i

/-- The digit table of package `fmt` for the verb `%x`. -/
def ldigits : List Char := "0123456789abcdef".toList

/-- The rendering `fmt.Sprintf("%x", b)` of a byte slice: for every byte the digit of
its high nibble, then the digit of its low nibble. -/
def Sprintf_x (b : List Nat) : String :=
  String.mk (b.flatMap fun c => [ldigits.getD (c >>> 4) '0', ldigits.getD (c &&& 0xF) '0'])

/-- The bytes `binary.LittleEndian.PutUint64` writes: byte `i` is `byte(v >> (8*i))`. -/
def PutUint64 (v : Nat) : List Nat :=
  [v % 256, (v >>> 8) % 256, (v >>> 16) % 256, (v >>> 24) % 256,
   (v >>> 32) % 256, (v >>> 40) % 256, (v >>> 48) % 256, (v >>> 56) % 256]

/-- The function `strings.Join`. -/
def strings_Join (elems : List String) (sep : String) : String :=
  sep.intercalate elems

/-! ## The conversion (`tov2.go`) -/

def valueText (s : String) : v2.Value := .Text s

def valueInt64 (i : Int) : v2.Value := .Integer i

def valueInt32 (i : Int) : v2.Value := .Integer i

def valueTextSlice (s : List String) : v2.Value := .Text (strings_Join s "\n")

/-- Writing a tag. Assigning to an entry of a nil map panics. -/
def setV2Tag (e : v2.Envelope) (key : String) (value : Scalar) : Except String v2.Envelope :=
  match e.DeprecatedTags with
  | none => .error "assignment to entry in nil map"
  | some tags => .ok { e with DeprecatedTags := some (tags.insert key (valueText (Sprintf_v value))) }

/-- Removing a tag; `delete` on a nil map does nothing. -/
def unsetV2Tag (e : v2.Envelope) (key : String) : v2.Envelope :=
  { e with DeprecatedTags := e.DeprecatedTags.map fun tags => tags.erase key }

def initTags (e : v2.Envelope) (oldTags : GoMap String) : Except String v2.Envelope :=
  oldTags.entries.foldlM (fun e kv => setV2Tag e kv.1 (.str kv.2))
    { e with DeprecatedTags := some ∅ }

def uuidToString (uuid : Option events.UUID) : String :=
  let low := PutUint64 (events.UUID.GetLow uuid)
  let high := PutUint64 (events.UUID.GetHigh uuid)
  Sprintf_x (low.take 4) ++ "-" ++ Sprintf_x ((low.drop 4).take 2) ++ "-" ++
    Sprintf_x (low.drop 6) ++ "-" ++ Sprintf_x (high.take 2) ++ "-" ++ Sprintf_x (high.drop 2)

def convertError (v2e : v2.Envelope) (v1e : events.Envelope) : Except String v2.Envelope := do
  let t := v1e.GetError
  let v2e ← setV2Tag v2e "source" (.str (events.Error.GetSource t))
  let v2e ← setV2Tag v2e "code" (.str (events.Error.GetCode t))
  pure { v2e with
    Message := some (.Envelope_Log
      { Payload := (events.Error.GetMessage t).toUTF8.data.toList, LogType := v2.Log_OUT }) }

def convertAppUUID (appID : Option events.UUID) (sourceID : String) : String :=
  if events.UUID.GetLow appID = 0 ∧ events.UUID.GetHigh appID = 0 then sourceID
  else uuidToString appID

def convertAppID (appID sourceID : String) : String :=
  if appID = "" then sourceID else appID

def convertHTTPStartStop (T : EnumTables) (v2e : v2.Envelope) (v1e : events.Envelope) :
    Except String v2.Envelope := do
  let t := v1e.GetHttpStartStop
  let v2e := { v2e with
    SourceId := convertAppUUID (events.HttpStartStop.GetApplicationId t) v2e.SourceId }
  let v2e := { v2e with
    Message := some (.Envelope_Timer
      { Name := "http"
        Start := events.HttpStartStop.GetStartTimestamp t
        Stop := events.HttpStartStop.GetStopTimestamp t }) }
  let v2e ← setV2Tag v2e "request_id" (.str (uuidToString (events.HttpStartStop.GetRequestId t)))
  let v2e ← setV2Tag v2e "peer_type"
    (.str (EnumName T.PeerType_name (events.HttpStartStop.GetPeerType t)))
  let v2e ← setV2Tag v2e "method" (.str (EnumName T.Method_name (events.HttpStartStop.GetMethod t)))
  let v2e ← setV2Tag v2e "uri" (.str (events.HttpStartStop.GetUri t))
  let v2e ← setV2Tag v2e "remote_address" (.str (events.HttpStartStop.GetRemoteAddress t))
  let v2e ← setV2Tag v2e "user_agent" (.str (events.HttpStartStop.GetUserAgent t))
  let v2e ← setV2Tag v2e "status_code" (.int32 (events.HttpStartStop.GetStatusCode t))
  let v2e ← setV2Tag v2e "content_length" (.int64 (events.HttpStartStop.GetContentLength t))
  let v2e ← setV2Tag v2e "instance_index" (.int32 (events.HttpStartStop.GetInstanceIndex t))
  let v2e ← setV2Tag v2e "routing_instance_id" (.str (events.HttpStartStop.GetInstanceId t))
  setV2Tag v2e "forwarded" (.str (strings_Join (events.HttpStartStop.GetForwarded t) "\n"))

/-- The name of the legacy message type is looked up in the values of the new Log type;
a missing entry of either table reads as the zero value (`""`, then `0`). -/
def convertLogMessageType (T : EnumTables) (t : Int) : Int :=
  let name := (T.LogMessage_MessageType_name t).getD ""
  (T.Log_Type_value name).getD 0

def convertLogMessage (T : EnumTables) (v2e : v2.Envelope) (e : events.Envelope) :
    Except String v2.Envelope := do
  let t := e.GetLogMessage
  let v2e ← setV2Tag v2e "source_type" (.str (events.LogMessage.GetSourceType t))
  let v2e := { v2e with InstanceId := events.LogMessage.GetSourceInstance t }
  let v2e := { v2e with SourceId := convertAppID (events.LogMessage.GetAppId t) v2e.SourceId }
  pure { v2e with
    Message := some (.Envelope_Log
      { Payload := events.LogMessage.GetMessage t
        LogType := convertLogMessageType T (events.LogMessage.GetMessageType t) }) }

def convertValueMetric (v2e : v2.Envelope) (e : events.Envelope) : Except String v2.Envelope :=
  let t := e.GetValueMetric
  pure { v2e with
    Message := some (.Envelope_Gauge
      { Metrics := (∅ : GoMap v2.GaugeValue).insert (events.ValueMetric.GetName t)
          { Unit := events.ValueMetric.GetUnit t, Value := events.ValueMetric.GetValue t } }) }

def convertCounterEvent (v2e : v2.Envelope) (e : events.Envelope) : Except String v2.Envelope :=
  let t := e.GetCounterEvent
  pure { v2e with
    Message := some (.Envelope_Counter
      { Name := events.CounterEvent.GetName t
        Value := some (.Total (events.CounterEvent.GetTotal t)) }) }

def convertContainerMetric (v2e : v2.Envelope) (e : events.Envelope) :
    Except String v2.Envelope :=
  let t := e.GetContainerMetric
  let v2e := { v2e with
    SourceId := convertAppID (events.ContainerMetric.GetApplicationId t) v2e.SourceId }
  pure { v2e with
    Message := some (.Envelope_Gauge
      { Metrics := (∅ : GoMap v2.GaugeValue)
          |>.insert "instance_index"
            { Unit := "index", Value := Float.ofInt (events.ContainerMetric.GetInstanceIndex t) }
          |>.insert "cpu"
            { Unit := "percentage", Value := events.ContainerMetric.GetCpuPercentage t }
          |>.insert "memory"
            { Unit := "bytes", Value := Float.ofNat (events.ContainerMetric.GetMemoryBytes t) }
          |>.insert "disk"
            { Unit := "bytes", Value := Float.ofNat (events.ContainerMetric.GetDiskBytes t) }
          |>.insert "memory_quota"
            { Unit := "bytes", Value := Float.ofNat (events.ContainerMetric.GetMemoryBytesQuota t) }
          |>.insert "disk_quota"
            { Unit := "bytes", Value := Float.ofNat (events.ContainerMetric.GetDiskBytesQuota t) } }) }

/-- Lines 15 to 35 of `ToV2`: the envelope as it stands when the `switch` is reached. -/
def ToV2.header (T : EnumTables) (e : events.Envelope) : Except String v2.Envelope := do
  let v2e : v2.Envelope :=
    { Timestamp := e.GetTimestamp, SourceId := "", InstanceId := "",
      DeprecatedTags := none, Message := none }
  let v2e ← initTags v2e e.GetTags
  let v2e ← setV2Tag v2e "origin" (.str e.GetOrigin)
  let v2e ← setV2Tag v2e "deployment" (.str e.GetDeployment)
  let v2e ← setV2Tag v2e "job" (.str e.GetJob)
  let v2e ← setV2Tag v2e "index" (.str e.GetIndex)
  let v2e ← setV2Tag v2e "ip" (.str e.GetIp)
  let v2e ← setV2Tag v2e "__v1_type" (.str (EnumName T.Envelope_EventType_name e.GetEventType))
  let v2e := unsetV2Tag v2e "source_id"
  let (sourceId, ok) := index2 e.GetTags "source_id"
  let v2e := { v2e with SourceId := sourceId }
  let v2e := if !ok then { v2e with SourceId := e.GetDeployment ++ "/" ++ e.GetJob } else v2e
  let v2e := unsetV2Tag v2e "instance_id"
  pure { v2e with InstanceId := index1 e.GetTags "instance_id" }

/-- The function `ToV2` converts v1 envelopes up to v2 envelopes: the header, then the
`switch` over the event type. -/
def ToV2 (T : EnumTables) (e : events.Envelope) : Except String v2.Envelope := do
  let v2e ← ToV2.header T e
  if e.GetEventType = events.Envelope_LogMessage then convertLogMessage T v2e e
  else if e.GetEventType = events.Envelope_HttpStartStop then convertHTTPStartStop T v2e e
  else if e.GetEventType = events.Envelope_ValueMetric then convertValueMetric v2e e
  else if e.GetEventType = events.Envelope_CounterEvent then convertCounterEvent v2e e
  else if e.GetEventType = events.Envelope_Error then convertError v2e e
  else if e.GetEventType = events.Envelope_ContainerMetric then convertContainerMetric v2e e
  else pure v2e

/-! ## Definitions for the statements -/

/-- The tag mapping after the loop of `initTags` over the entries `l`, from `acc`. -/
def copyTags (l : List (Sigma fun _ : String => String)) (acc : GoMap v2.Value) : GoMap v2.Value :=
  l.foldl (fun tags kv => tags.insert kv.1 (valueText (Sprintf_v (.str kv.2)))) acc

/-- The generic default of `SourceId`: the input tag `source_id` when the key is
present, else deployment, a slash, job. -/
def defaultSourceId (e : events.Envelope) : String :=
  match e.GetTags.lookup "source_id" with
  | some v => v
  | none => e.GetDeployment ++ "/" ++ e.GetJob

/-- The generic default of `InstanceId`: the input tag `instance_id`, the empty string
when the key is absent. -/
def defaultInstanceId (e : events.Envelope) : String :=
  match e.GetTags.lookup "instance_id" with
  | some v => v
  | none => ""

/-- The tag mapping when the `switch` is reached: the copied input tags, the six header
tags written over them, then `source_id` and `instance_id` removed. -/
def headerTags (T : EnumTables) (e : events.Envelope) : GoMap v2.Value :=
  (((((((copyTags e.GetTags.entries ∅
    |>.insert "origin" (.Text e.GetOrigin))
    |>.insert "deployment" (.Text e.GetDeployment))
    |>.insert "job" (.Text e.GetJob))
    |>.insert "index" (.Text e.GetIndex))
    |>.insert "ip" (.Text e.GetIp))
    |>.insert "__v1_type" (.Text (EnumName T.Envelope_EventType_name e.GetEventType)))
    |>.erase "source_id")
    |>.erase "instance_id"

/-- The text value with string `o`, or `d` when there is no string. -/
def textOr (o : Option String) (d : Option v2.Value) : Option v2.Value :=
  match o with
  | some s => some (v2.Value.Text s)
  | none => d

/-- The header tag written under `k` before the `switch`, if `k` is one of the six
header keys. -/
def headerTag (T : EnumTables) (e : events.Envelope) (k : String) : Option String :=
  if k = "__v1_type" then some (EnumName T.Envelope_EventType_name e.GetEventType)
  else if k = "ip" then some e.GetIp
  else if k = "index" then some e.GetIndex
  else if k = "job" then some e.GetJob
  else if k = "deployment" then some e.GetDeployment
  else if k = "origin" then some e.GetOrigin
  else none

/-- The tag the variant converter of the event type of `e` writes under `k`, if it
writes one: `source_type` for LogMessage, the eleven tags of HttpStartStop, `source` and
`code` for Error. -/
def variantTag (T : EnumTables) (e : events.Envelope) (k : String) : Option String :=
  if e.GetEventType = events.Envelope_LogMessage then
    if k = "source_type" then some (events.LogMessage.GetSourceType e.GetLogMessage) else none
  else if e.GetEventType = events.Envelope_HttpStartStop then
    let t := e.GetHttpStartStop
    if k = "forwarded" then some (strings_Join (events.HttpStartStop.GetForwarded t) "\n")
    else if k = "routing_instance_id" then some (events.HttpStartStop.GetInstanceId t)
    else if k = "instance_index" then some (toString (events.HttpStartStop.GetInstanceIndex t))
    else if k = "content_length" then some (toString (events.HttpStartStop.GetContentLength t))
    else if k = "status_code" then some (toString (events.HttpStartStop.GetStatusCode t))
    else if k = "user_agent" then some (events.HttpStartStop.GetUserAgent t)
    else if k = "remote_address" then some (events.HttpStartStop.GetRemoteAddress t)
    else if k = "uri" then some (events.HttpStartStop.GetUri t)
    else if k = "method" then some (EnumName T.Method_name (events.HttpStartStop.GetMethod t))
    else if k = "peer_type" then
      some (EnumName T.PeerType_name (events.HttpStartStop.GetPeerType t))
    else if k = "request_id" then some (uuidToString (events.HttpStartStop.GetRequestId t))
    else none
  else if e.GetEventType = events.Envelope_Error then
    if k = "code" then some (events.Error.GetCode e.GetError)
    else if k = "source" then some (events.Error.GetSource e.GetError)
    else none
  else none

/-- The `SourceId` of the output: the generic default, replaced by the variant value for
LogMessage (`appId`), HttpStartStop (`applicationId`) and ContainerMetric
(`applicationId`) through `convertAppID` and `convertAppUUID`. -/
def variantSourceId (e : events.Envelope) : String :=
  if e.GetEventType = events.Envelope_LogMessage then
    convertAppID (events.LogMessage.GetAppId e.GetLogMessage) (defaultSourceId e)
  else if e.GetEventType = events.Envelope_HttpStartStop then
    convertAppUUID (events.HttpStartStop.GetApplicationId e.GetHttpStartStop) (defaultSourceId e)
  else if e.GetEventType = events.Envelope_ContainerMetric then
    convertAppID (events.ContainerMetric.GetApplicationId e.GetContainerMetric)
      (defaultSourceId e)
  else defaultSourceId e

/-- The `InstanceId` of the output: `sourceInstance` for LogMessage, else the generic
default. -/
def variantInstanceId (e : events.Envelope) : String :=
  if e.GetEventType = events.Envelope_LogMessage then
    events.LogMessage.GetSourceInstance e.GetLogMessage
  else defaultInstanceId e

/-- The tags of the output where the variant converter writes none, read at `k`: nothing
under `instance_id` and `source_id`, the header tag under a header key, and else the input
tag as text. -/
def genericTagAt (T : EnumTables) (e : events.Envelope) (k : String) : Option v2.Value :=
  if k = "instance_id" then none
  else if k = "source_id" then none
  else if k = "__v1_type" then
    some (v2.Value.Text (EnumName T.Envelope_EventType_name e.GetEventType))
  else if k = "ip" then some (v2.Value.Text e.GetIp)
  else if k = "index" then some (v2.Value.Text e.GetIndex)
  else if k = "job" then some (v2.Value.Text e.GetJob)
  else if k = "deployment" then some (v2.Value.Text e.GetDeployment)
  else if k = "origin" then some (v2.Value.Text e.GetOrigin)
  else (e.GetTags.lookup k).map v2.Value.Text

/-- An envelope with every field absent and no tags. -/
def emptyEnvelope : events.Envelope :=
  { Origin := none, EventType := none, Timestamp := none, Deployment := none, Job := none,
    Index := none, Ip := none, Tags := ∅, HttpStartStop := none, LogMessage := none,
    ValueMetric := none, CounterEvent := none, Error := none, ContainerMetric := none }

/-- The six header keys `ToV2` writes before the `switch`. -/
def headerKeys : List String := ["origin", "deployment", "job", "index", "ip", "__v1_type"]

/-- The keys the variant converter of an event type writes. -/
def variantKeys (eventType : Int) : List String :=
  if eventType = events.Envelope_LogMessage then ["source_type"]
  else if eventType = events.Envelope_HttpStartStop then
    ["request_id", "peer_type", "method", "uri", "remote_address", "user_agent", "status_code",
     "content_length", "instance_index", "routing_instance_id", "forwarded"]
  else if eventType = events.Envelope_Error then ["source", "code"]
  else []

/-! ## The UUID layout as the spec words it -/

/-- Byte `i` of the little-endian encoding of `v`. -/
def leByte (v i : Nat) : Nat := v / 256 ^ i % 256

/-- The two-digit lower-case hexadecimal numeral of a byte. -/
def hex2 (b : Nat) : String := String.mk ((Nat.toDigits 16 b).leftpad 2 '0')

/-- The layout of the UUID string as the spec words it: the bytes 0 to 3 of `low`, a
hyphen, the bytes 4 and 5 of `low`, a hyphen, the bytes 6 and 7 of `low`, a hyphen, the
bytes 0 and 1 of `high`, a hyphen, the bytes 2 to 7 of `high`, each byte as two
lower-case hexadecimal digits. -/
def uuidLayout (low high : Nat) : String :=
  hex2 (leByte low 0) ++ hex2 (leByte low 1) ++ hex2 (leByte low 2) ++ hex2 (leByte low 3)
    ++ "-" ++ hex2 (leByte low 4) ++ hex2 (leByte low 5)
    ++ "-" ++ hex2 (leByte low 6) ++ hex2 (leByte low 7)
    ++ "-" ++ hex2 (leByte high 0) ++ hex2 (leByte high 1)
    ++ "-" ++ hex2 (leByte high 2) ++ hex2 (leByte high 3) ++ hex2 (leByte high 4)
    ++ hex2 (leByte high 5) ++ hex2 (leByte high 6) ++ hex2 (leByte high 7)

/-! ## Concrete envelopes -/

/-- A ValueMetric envelope without tags, of deployment `d` and job `j`. -/
def envValueMetric : events.Envelope :=
  { emptyEnvelope with
    EventType := some events.Envelope_ValueMetric, Deployment := some "d", Job := some "j" }

/-- A LogMessage envelope of origin `o` and source type `APP` whose input tags carry
`origin = x` and `source_type = y`. -/
def envOverwrittenTags : events.Envelope :=
  { emptyEnvelope with
    EventType := some events.Envelope_LogMessage
    Origin := some "o"
    Tags := (∅ : GoMap String).insert "origin" "x" |>.insert "source_type" "y"
    LogMessage := some
      { Message := [], MessageType := 1, AppId := "", SourceType := "APP", SourceInstance := "" } }

/-- A CounterEvent envelope whose input tags carry `zone = z1`. -/
def envZoneTag : events.Envelope :=
  { emptyEnvelope with
    EventType := some events.Envelope_CounterEvent
    Tags := (∅ : GoMap String).insert "zone" "z1" }

/-- A LogMessage envelope of `appId = app1` and empty `sourceInstance` whose input tags
carry `source_id = abc` and `instance_id = 7`. -/
def envLogApp1 : events.Envelope :=
  { emptyEnvelope with
    EventType := some events.Envelope_LogMessage
    Deployment := some "d"
    Job := some "j"
    Tags := (∅ : GoMap String).insert "source_id" "abc" |>.insert "instance_id" "7"
    LogMessage := some
      { Message := [], MessageType := 1, AppId := "app1", SourceType := "APP",
        SourceInstance := "" } }

/-- An HttpStartStop envelope of `applicationId = (1, 0)` whose input tags carry
`source_id = abc`. -/
def envHttpApp : events.Envelope :=
  { emptyEnvelope with
    EventType := some events.Envelope_HttpStartStop
    Tags := (∅ : GoMap String).insert "source_id" "abc"
    HttpStartStop := some
      { StartTimestamp := 1, StopTimestamp := 2, RequestId := none, PeerType := 1, Method := 1,
        Uri := "", RemoteAddress := "", UserAgent := "", StatusCode := 200, ContentLength := 0,
        ApplicationId := some { Low := 1, High := 0 }, InstanceIndex := 0, InstanceId := "",
        Forwarded := [] } }

/-- An envelope of discriminator 1, none of the six known event types, of deployment `d`
and job `j`, without tags. -/
def envUnrecognized : events.Envelope :=
  { emptyEnvelope with EventType := some 1, Deployment := some "d", Job := some "j" }

/-- A ContainerMetric envelope of `applicationId = app` whose input tags carry
`source_id = abc`. -/
def envContainerApp : events.Envelope :=
  { emptyEnvelope with
    EventType := some events.Envelope_ContainerMetric
    Tags := (∅ : GoMap String).insert "source_id" "abc"
    ContainerMetric := some
      { ApplicationId := "app", InstanceIndex := 3, CpuPercentage := 1.5, MemoryBytes := 10,
        DiskBytes := 20, MemoryBytesQuota := 30, DiskBytesQuota := 40 } }

/-- An Error envelope of source `s`, code `c` and message `boom`. -/
def envErrorBoom : events.Envelope :=
  { emptyEnvelope with
    EventType := some events.Envelope_Error
    Deployment := some "d"
    Job := some "j"
    Error := some { Source := "s", Code := "c", Message := "boom" } }

/-- A CounterEvent envelope of name `requests` and total 5. -/
def envCounterFive : events.Envelope :=
  { emptyEnvelope with
    EventType := some events.Envelope_CounterEvent
    CounterEvent := some { Name := "requests", Total := 5 } }

/-- A ValueMetric envelope of name `latency`, unit `ms` and value 1.5. -/
def envGaugeLatency : events.Envelope :=
  { emptyEnvelope with
    EventType := some events.Envelope_ValueMetric
    ValueMetric := some { Name := "latency", Value := 1.5, Unit := "ms" } }

/-- An HttpStartStop envelope whose `applicationId` is the all-zero pair and whose input
tags carry under `source_id` the UUID string of the pair `(1, 0)`. -/
def envHttpZeroApp : events.Envelope :=
  { emptyEnvelope with
    EventType := some events.Envelope_HttpStartStop
    Tags := (∅ : GoMap String).insert "source_id" "01000000-0000-0000-0000-000000000000"
    HttpStartStop := some
      { StartTimestamp := 1, StopTimestamp := 2, RequestId := none, PeerType := 1, Method := 1,
        Uri := "", RemoteAddress := "", UserAgent := "", StatusCode := 200, ContentLength := 0,
        ApplicationId := some { Low := 0, High := 0 }, InstanceIndex := 0, InstanceId := "",
        Forwarded := [] } }

/-- An HttpStartStop envelope of `applicationId = (2, 0)` and `requestId = (3, 4)`. -/
def envHttpApp2 : events.Envelope :=
  { emptyEnvelope with
    EventType := some events.Envelope_HttpStartStop
    HttpStartStop := some
      { StartTimestamp := 1, StopTimestamp := 2, RequestId := some { Low := 3, High := 4 },
        PeerType := 1, Method := 1, Uri := "", RemoteAddress := "", UserAgent := "",
        StatusCode := 200, ContentLength := 0, ApplicationId := some { Low := 2, High := 0 },
        InstanceIndex := 0, InstanceId := "", Forwarded := [] } }

/-! ## Lemmas: the tag mapping and the result of `ToV2` for each event type -/

theorem foldlM_setV2Tag (l : List (Sigma fun _ : String => String)) (e : v2.Envelope)
    (acc : GoMap v2.Value) (h : e.DeprecatedTags = some acc) :
    l.foldlM (fun e kv => setV2Tag e kv.1 (.str kv.2)) e
      = .ok { e with DeprecatedTags := some (copyTags l acc) } := by
  induction l generalizing e acc with
  | nil =>
    cases e
    simp only at h
    subst h
    rfl
  | cons kv l ih =>
    rw [List.foldlM_cons]
    have hs : setV2Tag e kv.1 (.str kv.2)
        = .ok { e with DeprecatedTags := some (acc.insert kv.1 (valueText (Sprintf_v (.str kv.2)))) } := by
      simp [setV2Tag, h]
    rw [hs]
    exact ih _ _ rfl

theorem initTags_ok (e : v2.Envelope) (oldTags : GoMap String) :
    initTags e oldTags = .ok { e with DeprecatedTags := some (copyTags oldTags.entries ∅) } := by
  unfold initTags
  rw [foldlM_setV2Tag _ _ ∅ rfl]

theorem lookup_copyTags (k : String) (l : List (Sigma fun _ : String => String))
    (hl : l.NodupKeys) (acc : GoMap v2.Value) :
    (copyTags l acc).lookup k =
      match l.dlookup k with
      | some v => some (v2.Value.Text v)
      | none => acc.lookup k := by
  induction l generalizing acc with
  | nil => rfl
  | cons kv l ih =>
    obtain ⟨k1, v1⟩ := kv
    rw [List.nodupKeys_cons] at hl
    have := ih hl.2 (acc.insert k1 (valueText (Sprintf_v (.str v1))))
    simp only [copyTags, List.foldl_cons] at this ⊢
    rw [this]
    by_cases hk : k = k1
    · subst hk
      have hnone : List.dlookup k l = none := List.dlookup_eq_none.mpr hl.1
      simp [hnone, valueText, Sprintf_v]
    · rw [List.dlookup_cons_ne _ _ hk]
      cases List.dlookup k l with
      | none => simp [AList.lookup_insert_ne hk]
      | some v => rfl

theorem lookup_copyTags_empty (k : String) (m : GoMap String) :
    (copyTags m.entries ∅).lookup k = (m.lookup k).map v2.Value.Text := by
  rw [lookup_copyTags k m.entries m.nodupKeys ∅]
  show _ = Option.map _ (List.dlookup k m.entries)
  cases List.dlookup k m.entries <;> simp

theorem header_ok (T : EnumTables) (e : events.Envelope) :
    ToV2.header T e = .ok
      { Timestamp := e.GetTimestamp, SourceId := defaultSourceId e,
        InstanceId := defaultInstanceId e, DeprecatedTags := some (headerTags T e),
        Message := none } := by
  simp only [ToV2.header, initTags_ok, setV2Tag, unsetV2Tag, bind, Except.bind, pure, Except.pure, index1, index2,
    defaultSourceId, defaultInstanceId, headerTags, valueText, Sprintf_v, Option.map]
  cases e.GetTags.lookup "source_id" <;> cases e.GetTags.lookup "instance_id" <;> simp

theorem lookup_insert_ite {V : Type} (m : GoMap V) (k k1 : String) (v : V) :
    (m.insert k1 v).lookup k = if k = k1 then some v else m.lookup k := by
  split_ifs with h
  · subst h
    exact AList.lookup_insert m
  · exact AList.lookup_insert_ne h

theorem lookup_erase_ite {V : Type} (m : GoMap V) (k k1 : String) :
    (m.erase k1).lookup k = if k = k1 then none else m.lookup k := by
  split_ifs with h
  · subst h
    exact AList.lookup_erase k m
  · exact AList.lookup_erase_ne h

theorem textOr_ite (c : Prop) [Decidable c] (s : String) (y : Option String)
    (d : Option v2.Value) :
    textOr (if c then some s else y) d = if c then some (v2.Value.Text s) else textOr y d := by
  split_ifs <;> rfl

theorem textOr_none (d : Option v2.Value) : textOr none d = d := rfl

theorem textOr_some (s : String) (d : Option v2.Value) :
    textOr (some s) d = some (v2.Value.Text s) := rfl

theorem lookup_headerTags (T : EnumTables) (e : events.Envelope) (k : String) :
    (headerTags T e).lookup k =
      if k = "instance_id" then none
      else if k = "source_id" then none
      else textOr (headerTag T e k) ((e.GetTags.lookup k).map v2.Value.Text) := by
  simp only [headerTags, lookup_insert_ite, lookup_erase_ite, lookup_copyTags_empty, headerTag,
    textOr_ite, textOr_none]

theorem ToV2_LogMessage (T : EnumTables) (e : events.Envelope)
    (h : e.GetEventType = events.Envelope_LogMessage) :
    ToV2 T e = .ok
      { Timestamp := e.GetTimestamp
        SourceId := convertAppID (events.LogMessage.GetAppId e.GetLogMessage) (defaultSourceId e)
        InstanceId := events.LogMessage.GetSourceInstance e.GetLogMessage
        DeprecatedTags := some ((headerTags T e).insert "source_type"
          (.Text (events.LogMessage.GetSourceType e.GetLogMessage)))
        Message := some (.Envelope_Log
          { Payload := events.LogMessage.GetMessage e.GetLogMessage
            LogType := convertLogMessageType T (events.LogMessage.GetMessageType e.GetLogMessage) }) } := by
  simp only [ToV2, header_ok, h, convertLogMessage, setV2Tag, bind, Except.bind, pure,
    Except.pure, if_true, valueText, Sprintf_v]

theorem ToV2_HttpStartStop (T : EnumTables) (e : events.Envelope)
    (h : e.GetEventType = events.Envelope_HttpStartStop) :
    ToV2 T e = .ok
      { Timestamp := e.GetTimestamp
        SourceId := convertAppUUID (events.HttpStartStop.GetApplicationId e.GetHttpStartStop)
          (defaultSourceId e)
        InstanceId := defaultInstanceId e
        DeprecatedTags := some ((headerTags T e)
          |>.insert "request_id"
            (.Text (uuidToString (events.HttpStartStop.GetRequestId e.GetHttpStartStop)))
          |>.insert "peer_type"
            (.Text (EnumName T.PeerType_name (events.HttpStartStop.GetPeerType e.GetHttpStartStop)))
          |>.insert "method"
            (.Text (EnumName T.Method_name (events.HttpStartStop.GetMethod e.GetHttpStartStop)))
          |>.insert "uri" (.Text (events.HttpStartStop.GetUri e.GetHttpStartStop))
          |>.insert "remote_address"
            (.Text (events.HttpStartStop.GetRemoteAddress e.GetHttpStartStop))
          |>.insert "user_agent" (.Text (events.HttpStartStop.GetUserAgent e.GetHttpStartStop))
          |>.insert "status_code"
            (.Text (toString (events.HttpStartStop.GetStatusCode e.GetHttpStartStop)))
          |>.insert "content_length"
            (.Text (toString (events.HttpStartStop.GetContentLength e.GetHttpStartStop)))
          |>.insert "instance_index"
            (.Text (toString (events.HttpStartStop.GetInstanceIndex e.GetHttpStartStop)))
          |>.insert "routing_instance_id"
            (.Text (events.HttpStartStop.GetInstanceId e.GetHttpStartStop))
          |>.insert "forwarded"
            (.Text (strings_Join (events.HttpStartStop.GetForwarded e.GetHttpStartStop) "\n")))
        Message := some (.Envelope_Timer
          { Name := "http"
            Start := events.HttpStartStop.GetStartTimestamp e.GetHttpStartStop
            Stop := events.HttpStartStop.GetStopTimestamp e.GetHttpStartStop }) } := by
  simp [ToV2, header_ok, h, convertHTTPStartStop, setV2Tag, bind, Except.bind,
    valueText, Sprintf_v, events.Envelope_HttpStartStop, events.Envelope_LogMessage]

theorem ToV2_ValueMetric (T : EnumTables) (e : events.Envelope)
    (h : e.GetEventType = events.Envelope_ValueMetric) :
    ToV2 T e = .ok
      { Timestamp := e.GetTimestamp
        SourceId := defaultSourceId e
        InstanceId := defaultInstanceId e
        DeprecatedTags := some (headerTags T e)
        Message := some (.Envelope_Gauge
          { Metrics := (∅ : GoMap v2.GaugeValue).insert
              (events.ValueMetric.GetName e.GetValueMetric)
              { Unit := events.ValueMetric.GetUnit e.GetValueMetric
                Value := events.ValueMetric.GetValue e.GetValueMetric } }) } := by
  simp [ToV2, header_ok, h, convertValueMetric, bind, Except.bind, pure, Except.pure,
    events.Envelope_HttpStartStop, events.Envelope_LogMessage, events.Envelope_ValueMetric]

theorem ToV2_CounterEvent (T : EnumTables) (e : events.Envelope)
    (h : e.GetEventType = events.Envelope_CounterEvent) :
    ToV2 T e = .ok
      { Timestamp := e.GetTimestamp
        SourceId := defaultSourceId e
        InstanceId := defaultInstanceId e
        DeprecatedTags := some (headerTags T e)
        Message := some (.Envelope_Counter
          { Name := events.CounterEvent.GetName e.GetCounterEvent
            Value := some (.Total (events.CounterEvent.GetTotal e.GetCounterEvent)) }) } := by
  simp [ToV2, header_ok, h, convertCounterEvent, bind, Except.bind, pure, Except.pure,
    events.Envelope_HttpStartStop, events.Envelope_LogMessage, events.Envelope_ValueMetric,
    events.Envelope_CounterEvent]

theorem ToV2_Error (T : EnumTables) (e : events.Envelope)
    (h : e.GetEventType = events.Envelope_Error) :
    ToV2 T e = .ok
      { Timestamp := e.GetTimestamp
        SourceId := defaultSourceId e
        InstanceId := defaultInstanceId e
        DeprecatedTags := some ((headerTags T e)
          |>.insert "source" (.Text (events.Error.GetSource e.GetError))
          |>.insert "code" (.Text (events.Error.GetCode e.GetError)))
        Message := some (.Envelope_Log
          { Payload := (events.Error.GetMessage e.GetError).toUTF8.data.toList
            LogType := v2.Log_OUT }) } := by
  simp [ToV2, header_ok, h, convertError, setV2Tag, bind, Except.bind, pure, Except.pure,
    valueText, Sprintf_v,
    events.Envelope_HttpStartStop, events.Envelope_LogMessage, events.Envelope_ValueMetric,
    events.Envelope_CounterEvent, events.Envelope_Error]

theorem ToV2_ContainerMetric (T : EnumTables) (e : events.Envelope)
    (h : e.GetEventType = events.Envelope_ContainerMetric) :
    ToV2 T e = .ok
      { Timestamp := e.GetTimestamp
        SourceId := convertAppID (events.ContainerMetric.GetApplicationId e.GetContainerMetric)
          (defaultSourceId e)
        InstanceId := defaultInstanceId e
        DeprecatedTags := some (headerTags T e)
        Message := some (.Envelope_Gauge
          { Metrics := (∅ : GoMap v2.GaugeValue)
              |>.insert "instance_index"
                { Unit := "index"
                  Value := Float.ofInt (events.ContainerMetric.GetInstanceIndex e.GetContainerMetric) }
              |>.insert "cpu"
                { Unit := "percentage"
                  Value := events.ContainerMetric.GetCpuPercentage e.GetContainerMetric }
              |>.insert "memory"
                { Unit := "bytes"
                  Value := Float.ofNat (events.ContainerMetric.GetMemoryBytes e.GetContainerMetric) }
              |>.insert "disk"
                { Unit := "bytes"
                  Value := Float.ofNat (events.ContainerMetric.GetDiskBytes e.GetContainerMetric) }
              |>.insert "memory_quota"
                { Unit := "bytes"
                  Value := Float.ofNat
                    (events.ContainerMetric.GetMemoryBytesQuota e.GetContainerMetric) }
              |>.insert "disk_quota"
                { Unit := "bytes"
                  Value := Float.ofNat
                    (events.ContainerMetric.GetDiskBytesQuota e.GetContainerMetric) } }) } := by
  simp [ToV2, header_ok, h, convertContainerMetric, bind, Except.bind, pure, Except.pure,
    events.Envelope_HttpStartStop, events.Envelope_LogMessage, events.Envelope_ValueMetric,
    events.Envelope_CounterEvent, events.Envelope_Error, events.Envelope_ContainerMetric]

theorem ToV2_other (T : EnumTables) (e : events.Envelope)
    (h1 : e.GetEventType ≠ events.Envelope_LogMessage)
    (h2 : e.GetEventType ≠ events.Envelope_HttpStartStop)
    (h3 : e.GetEventType ≠ events.Envelope_ValueMetric)
    (h4 : e.GetEventType ≠ events.Envelope_CounterEvent)
    (h5 : e.GetEventType ≠ events.Envelope_Error)
    (h6 : e.GetEventType ≠ events.Envelope_ContainerMetric) :
    ToV2 T e = .ok
      { Timestamp := e.GetTimestamp
        SourceId := defaultSourceId e
        InstanceId := defaultInstanceId e
        DeprecatedTags := some (headerTags T e)
        Message := none } := by
  simp [ToV2, header_ok, h1, h2, h3, h4, h5, h6, bind, Except.bind, pure, Except.pure]

/-- For every envelope `ToV2` returns: the timestamp and the two identity fields of the
result, and its tag mapping, where a key reads as the tag of the variant converter if it
wrote one, else as the mapping at the `switch`. -/
theorem ToV2_spec (T : EnumTables) (e : events.Envelope) :
    ∃ out tags, ToV2 T e = .ok out ∧ out.Timestamp = e.GetTimestamp ∧
      out.SourceId = variantSourceId e ∧ out.InstanceId = variantInstanceId e ∧
      out.DeprecatedTags = some tags ∧
      ∀ k, tags.lookup k = textOr (variantTag T e k) ((headerTags T e).lookup k) := by
  by_cases h1 : e.GetEventType = events.Envelope_LogMessage
  · refine ⟨_, _, ToV2_LogMessage T e h1, rfl, ?_, ?_, rfl, fun k => ?_⟩
    · rw [variantSourceId, if_pos h1]
    · rw [variantInstanceId, if_pos h1]
    · rw [variantTag, if_pos h1]
      simp only [lookup_insert_ite, textOr_ite, textOr_none]
  by_cases h2 : e.GetEventType = events.Envelope_HttpStartStop
  · refine ⟨_, _, ToV2_HttpStartStop T e h2, rfl, ?_, ?_, rfl, fun k => ?_⟩
    · rw [variantSourceId, if_neg h1, if_pos h2]
    · rw [variantInstanceId, if_neg h1]
    · rw [variantTag, if_neg h1, if_pos h2]
      simp only [lookup_insert_ite, textOr_ite, textOr_none]
  by_cases h6 : e.GetEventType = events.Envelope_ContainerMetric
  · have h5 : e.GetEventType ≠ events.Envelope_Error := by rw [h6]; decide
    refine ⟨_, _, ToV2_ContainerMetric T e h6, rfl, ?_, ?_, rfl, fun k => ?_⟩
    · rw [variantSourceId, if_neg h1, if_neg h2, if_pos h6]
    · rw [variantInstanceId, if_neg h1]
    · rw [variantTag, if_neg h1, if_neg h2, if_neg h5, textOr_none]
  by_cases h5 : e.GetEventType = events.Envelope_Error
  · refine ⟨_, _, ToV2_Error T e h5, rfl, ?_, ?_, rfl, fun k => ?_⟩
    · rw [variantSourceId, if_neg h1, if_neg h2, if_neg h6]
    · rw [variantInstanceId, if_neg h1]
    · rw [variantTag, if_neg h1, if_neg h2, if_pos h5]
      simp only [lookup_insert_ite, textOr_ite, textOr_none]
  have hs : variantSourceId e = defaultSourceId e := by
    rw [variantSourceId, if_neg h1, if_neg h2, if_neg h6]
  have hi : variantInstanceId e = defaultInstanceId e := by
    rw [variantInstanceId, if_neg h1]
  have ht : ∀ k, variantTag T e k = none := fun k => by
    rw [variantTag, if_neg h1, if_neg h2, if_neg h5]
  by_cases h3 : e.GetEventType = events.Envelope_ValueMetric
  · exact ⟨_, _, ToV2_ValueMetric T e h3, rfl, hs.symm, hi.symm, rfl,
      fun k => by rw [ht, textOr_none]⟩
  by_cases h4 : e.GetEventType = events.Envelope_CounterEvent
  · exact ⟨_, _, ToV2_CounterEvent T e h4, rfl, hs.symm, hi.symm, rfl,
      fun k => by rw [ht, textOr_none]⟩
  · exact ⟨_, _, ToV2_other T e h1 h2 h3 h4 h5 h6, rfl, hs.symm, hi.symm, rfl,
      fun k => by rw [ht, textOr_none]⟩

theorem headerTag_eq_none (T : EnumTables) (e : events.Envelope) (k : String)
    (h : k ∉ headerKeys) : headerTag T e k = none := by
  simp only [headerKeys, List.mem_cons, List.not_mem_nil, or_false, not_or] at h
  obtain ⟨a, b, c, d, f, g⟩ := h
  rw [headerTag, if_neg g, if_neg f, if_neg d, if_neg c, if_neg b, if_neg a]

theorem variantTag_eq_none (T : EnumTables) (e : events.Envelope) (k : String)
    (h : k ∉ variantKeys e.GetEventType) : variantTag T e k = none := by
  unfold variantKeys at h
  unfold variantTag
  split_ifs at h with h1 h2 h5
  · simp only [List.mem_cons, List.not_mem_nil, or_false] at h
    rw [if_pos h1, if_neg h]
  · simp only [List.mem_cons, List.not_mem_nil, or_false, not_or] at h
    obtain ⟨a1, a2, a3, a4, a5, a6, a7, a8, a9, a10, a11⟩ := h
    rw [if_neg h1, if_pos h2]
    simp only [if_neg a1, if_neg a2, if_neg a3, if_neg a4, if_neg a5, if_neg a6, if_neg a7,
      if_neg a8, if_neg a9, if_neg a10, if_neg a11]
  · simp only [List.mem_cons, List.not_mem_nil, or_false, not_or] at h
    rw [if_neg h1, if_neg h2, if_pos h5, if_neg h.2, if_neg h.1]
  · rw [if_neg h1, if_neg h2, if_neg h5]

/-! ## Lemmas: the UUID codec -/

theorem hexByte_eq : ∀ b, b < 256 →
    [ldigits.getD (b >>> 4) '0', ldigits.getD (b &&& 0xF) '0']
      = (Nat.toDigits 16 b).leftpad 2 '0' := by
  intro b hb
  interval_cases b <;> rfl

theorem PutUint64_eq (v : Nat) :
    PutUint64 v = [leByte v 0, leByte v 1, leByte v 2, leByte v 3, leByte v 4, leByte v 5,
      leByte v 6, leByte v 7] := by
  simp [PutUint64, leByte, Nat.shiftRight_eq_div_pow]

theorem leByte_lt (v i : Nat) : leByte v i < 256 := Nat.mod_lt _ (by norm_num)

theorem Sprintf_x_nil : Sprintf_x [] = "" := rfl

theorem Sprintf_x_cons (b : Nat) (bs : List Nat) (h : b < 256) :
    Sprintf_x (b :: bs) = hex2 b ++ Sprintf_x bs := by
  simp only [Sprintf_x, hex2, List.flatMap_cons]
  rw [← hexByte_eq b h]
  rfl

theorem hex2_length (b : Nat) (h : b < 256) : (hex2 b).length = 2 := by
  rw [hex2, ← hexByte_eq b h]
  rfl

theorem uuidToString_eq_layout (low high : Nat) :
    uuidToString (some { Low := low, High := high }) = uuidLayout low high := by
  unfold uuidToString
  rw [events.UUID.GetLow, events.UUID.GetHigh, PutUint64_eq, PutUint64_eq]
  simp only [uuidLayout, List.take, List.drop, Sprintf_x_cons _ _ (leByte_lt _ _), Sprintf_x_nil,
    String.append_empty, String.append_assoc]

/-! # The claims -/

/-! ## Source identity -/

/-- C1: for an envelope whose event type is ValueMetric, CounterEvent, Error or an
unrecognized discriminator (that is, none of LogMessage, HttpStartStop and
ContainerMetric, whose converters override the source id), `ToV2` returns an envelope whose
`SourceId` is the value of the input tag `source_id` when that key is present, whatever
the value, and deployment, a slash, job when the key is absent. With no tags, deployment
`d` and job `j` it is `d/j`; with the tags `source_id = abc` it is `abc`. -/
theorem C1_sourceId_generic (T : EnumTables) (e : events.Envelope)
    (h1 : e.GetEventType ≠ events.Envelope_LogMessage)
    (h2 : e.GetEventType ≠ events.Envelope_HttpStartStop)
    (h3 : e.GetEventType ≠ events.Envelope_ContainerMetric) :
    ∃ out, ToV2 T e = .ok out ∧
      (∀ v, e.GetTags.lookup "source_id" = some v → out.SourceId = v) ∧
      (e.GetTags.lookup "source_id" = none →
        out.SourceId = e.GetDeployment ++ "/" ++ e.GetJob) ∧
      (e.GetTags = ∅ → e.GetDeployment = "d" → e.GetJob = "j" → out.SourceId = "d/j") ∧
      (e.GetTags = (∅ : GoMap String).insert "source_id" "abc" → out.SourceId = "abc") := by
  obtain ⟨out, _, hok, _, hs, _⟩ := ToV2_spec T e
  rw [variantSourceId, if_neg h1, if_neg h2, if_neg h3] at hs
  refine ⟨out, hok, ?_, ?_, ?_, ?_⟩
  · intro v hv
    rw [hs, defaultSourceId, hv]
  · intro hv
    rw [hs, defaultSourceId, hv]
  · intro ht hd hj
    rw [hs, defaultSourceId, ht, hd, hj]
    rfl
  · intro ht
    rw [hs, defaultSourceId, ht]
    rfl

/-- C1 at a ValueMetric envelope without tags, deployment `d`, job `j`. -/
theorem C1_sourceId_generic_witness :
    ∃ out, ToV2 schemaTables envValueMetric = .ok out ∧ out.SourceId = "d/j" := by
  obtain ⟨out, hok, _, _, h, _⟩ :=
    C1_sourceId_generic schemaTables envValueMetric (by decide) (by decide) (by decide)
  exact ⟨out, hok, h rfl rfl rfl⟩

/-- C2: for every envelope, `ToV2` returns an envelope whose tag mapping has neither the
key `source_id` nor the key `instance_id`. -/
theorem C2_no_identity_tags (T : EnumTables) (e : events.Envelope) :
    ∃ out tags, ToV2 T e = .ok out ∧ out.DeprecatedTags = some tags ∧
      "source_id" ∉ tags ∧ "instance_id" ∉ tags := by
  obtain ⟨out, tags, hok, _, _, _, ht, hk⟩ := ToV2_spec T e
  refine ⟨out, tags, hok, ht, ?_, ?_⟩
  · rw [← AList.lookup_eq_none, hk, lookup_headerTags]
    have : variantTag T e "source_id" = none := by
      simp only [variantTag, String.reduceEq, if_false, ite_self]
    rw [this, if_neg (by decide), if_pos rfl, textOr_none]
  · rw [← AList.lookup_eq_none, hk, lookup_headerTags]
    have : variantTag T e "instance_id" = none := by
      simp only [variantTag, String.reduceEq, if_false, ite_self]
    rw [this, if_pos rfl, textOr_none]

/-- C3 fails as stated: at a LogMessage envelope of origin `o` and source type `APP`
whose input tags carry `origin = x` and `source_type = y`, the output tags map `origin` to
`o` (the header tag is written over the copied tag) and `source_type` to `APP` (the tag of
the variant converter is written over it), not to the values of the input tags. -/
theorem C3_counterexample :
    envOverwrittenTags.GetTags.lookup "origin" = some "x" ∧
    envOverwrittenTags.GetTags.lookup "source_type" = some "y" ∧
    ∃ out tags, ToV2 schemaTables envOverwrittenTags = .ok out ∧
      out.DeprecatedTags = some tags ∧
      tags.lookup "origin" = some (.Text "o") ∧
      tags.lookup "origin" ≠ some (.Text "x") ∧
      tags.lookup "source_type" = some (.Text "APP") ∧
      tags.lookup "source_type" ≠ some (.Text "y") := by
  refine ⟨by decide, by decide, _, _, rfl, rfl, ?_, ?_, ?_, ?_⟩
  · rfl
  · intro h
    have h2 : some (v2.Value.Text "o") = some (v2.Value.Text "x") := h
    simp at h2
  · rfl
  · intro h
    have h2 : some (v2.Value.Text "APP") = some (v2.Value.Text "y") := h
    simp at h2

/-- C3, amended: for every envelope and every key `k` of its input tags other than
`source_id`, `instance_id`, the six header keys and the keys the variant converter of
the event type writes, `ToV2` returns an envelope whose tags map `k` to the text value
with the string of the input tag. -/
theorem C3_tag_copy (T : EnumTables) (e : events.Envelope) (k v : String)
    (hv : e.GetTags.lookup k = some v)
    (h1 : k ≠ "source_id") (h2 : k ≠ "instance_id")
    (h3 : k ∉ headerKeys) (h4 : k ∉ variantKeys e.GetEventType) :
    ∃ out tags, ToV2 T e = .ok out ∧ out.DeprecatedTags = some tags ∧
      tags.lookup k = some (v2.Value.Text v) := by
  obtain ⟨out, tags, hok, _, _, _, ht, hk⟩ := ToV2_spec T e
  refine ⟨out, tags, hok, ht, ?_⟩
  rw [hk, variantTag_eq_none T e k h4, textOr_none, lookup_headerTags, if_neg h2, if_neg h1,
    headerTag_eq_none T e k h3, textOr_none, hv]
  rfl

/-- C3, amended, at a CounterEvent envelope with the input tag `zone = z1`. -/
theorem C3_tag_copy_witness :
    ∃ out tags, ToV2 schemaTables envZoneTag = .ok out ∧ out.DeprecatedTags = some tags ∧
      tags.lookup "zone" = some (v2.Value.Text "z1") :=
  C3_tag_copy schemaTables envZoneTag "zone" "z1" (by decide) (by decide) (by decide)
    (by decide) (by decide)

/-- C4: for a LogMessage envelope with a non-empty `appId`, `ToV2` returns an envelope
whose `SourceId` is `appId`, whatever the input tags, deployment and job; with an empty
`appId` the `SourceId` is the generic default (the tag `source_id` if present, else
deployment, a slash, job). -/
theorem C4_logMessage_sourceId (T : EnumTables) (e : events.Envelope)
    (h : e.GetEventType = events.Envelope_LogMessage) :
    ∃ out, ToV2 T e = .ok out ∧
      (events.LogMessage.GetAppId e.GetLogMessage ≠ "" →
        out.SourceId = events.LogMessage.GetAppId e.GetLogMessage) ∧
      (events.LogMessage.GetAppId e.GetLogMessage = "" →
        (∀ v, e.GetTags.lookup "source_id" = some v → out.SourceId = v) ∧
        (e.GetTags.lookup "source_id" = none →
          out.SourceId = e.GetDeployment ++ "/" ++ e.GetJob)) := by
  obtain ⟨out, _, hok, _, hs, _⟩ := ToV2_spec T e
  rw [variantSourceId, if_pos h] at hs
  refine ⟨out, hok, ?_, ?_⟩
  · intro ha
    rw [hs, convertAppID, if_neg ha]
  · intro ha
    rw [convertAppID, if_pos ha] at hs
    constructor
    · intro v hv
      rw [hs, defaultSourceId, hv]
    · intro hv
      rw [hs, defaultSourceId, hv]

/-- C4 at a LogMessage envelope of `appId = app1` whose tags carry `source_id = abc`. -/
theorem C4_logMessage_sourceId_witness :
    ∃ out, ToV2 schemaTables envLogApp1 = .ok out ∧ out.SourceId = "app1" := by
  obtain ⟨out, hok, h, _⟩ := C4_logMessage_sourceId schemaTables envLogApp1 (by decide)
  exact ⟨out, hok, h (by decide)⟩

/-- C5: for every envelope `ToV2` returns an envelope whose `InstanceId` is the
`sourceInstance` of the LogMessage when the event type is LogMessage (also when it is
empty and the tag `instance_id` is not), and the input tag `instance_id`, the empty string
when the key is absent, for every other event type. -/
theorem C5_instanceId (T : EnumTables) (e : events.Envelope) :
    ∃ out, ToV2 T e = .ok out ∧
      (e.GetEventType = events.Envelope_LogMessage →
        out.InstanceId = events.LogMessage.GetSourceInstance e.GetLogMessage) ∧
      (e.GetEventType ≠ events.Envelope_LogMessage →
        (∀ v, e.GetTags.lookup "instance_id" = some v → out.InstanceId = v) ∧
        (e.GetTags.lookup "instance_id" = none → out.InstanceId = "")) := by
  obtain ⟨out, _, hok, _, _, hi, _⟩ := ToV2_spec T e
  refine ⟨out, hok, ?_, ?_⟩
  · intro h
    rw [hi, variantInstanceId, if_pos h]
  · intro h
    rw [variantInstanceId, if_neg h] at hi
    constructor
    · intro v hv
      rw [hi, defaultInstanceId, hv]
    · intro hv
      rw [hi, defaultInstanceId, hv]

/-- C5 at a LogMessage envelope with an empty `sourceInstance` whose tags carry
`instance_id = 7`: the `InstanceId` is empty. -/
theorem C5_instanceId_witness :
    envLogApp1.GetTags.lookup "instance_id" = some "7" ∧
    ∃ out, ToV2 schemaTables envLogApp1 = .ok out ∧ out.InstanceId = "" := by
  obtain ⟨out, hok, h, _⟩ := C5_instanceId schemaTables envLogApp1
  exact ⟨by decide, out, hok, h (by decide)⟩

/-- C6: for an HttpStartStop envelope, `ToV2` returns an envelope whose `SourceId` is
the generic default (the tag `source_id` if present, else deployment, a slash, job) when
`applicationId` is the all-zero pair, in particular when it is absent, and the UUID string
of `applicationId` otherwise, whatever the tags. -/
theorem C6_httpStartStop_sourceId (T : EnumTables) (e : events.Envelope)
    (h : e.GetEventType = events.Envelope_HttpStartStop) :
    ∃ out, ToV2 T e = .ok out ∧
      (events.UUID.GetLow (events.HttpStartStop.GetApplicationId e.GetHttpStartStop) = 0 ∧
        events.UUID.GetHigh (events.HttpStartStop.GetApplicationId e.GetHttpStartStop) = 0 →
        out.SourceId = defaultSourceId e) ∧
      (events.HttpStartStop.GetApplicationId e.GetHttpStartStop = none →
        out.SourceId = defaultSourceId e) ∧
      (¬ (events.UUID.GetLow (events.HttpStartStop.GetApplicationId e.GetHttpStartStop) = 0 ∧
        events.UUID.GetHigh (events.HttpStartStop.GetApplicationId e.GetHttpStartStop) = 0) →
        out.SourceId =
          uuidToString (events.HttpStartStop.GetApplicationId e.GetHttpStartStop)) := by
  obtain ⟨out, _, hok, _, hs, _⟩ := ToV2_spec T e
  have h1 : e.GetEventType ≠ events.Envelope_LogMessage := by rw [h]; decide
  rw [variantSourceId, if_neg h1, if_pos h] at hs
  refine ⟨out, hok, ?_, ?_, ?_⟩
  · intro hz
    rw [hs, convertAppUUID, if_pos hz]
  · intro hn
    rw [hs, hn, convertAppUUID, if_pos ⟨rfl, rfl⟩]
  · intro hz
    rw [hs, convertAppUUID, if_neg hz]

/-- C6 at an HttpStartStop envelope of `applicationId = (1, 0)` whose tags carry
`source_id = abc`. -/
theorem C6_httpStartStop_sourceId_witness :
    ∃ out, ToV2 schemaTables envHttpApp = .ok out ∧
      out.SourceId = "01000000-0000-0000-0000-000000000000" := by
  obtain ⟨out, hok, _, _, h⟩ := C6_httpStartStop_sourceId schemaTables envHttpApp (by decide)
  exact ⟨out, hok, (h (by decide)).trans (by decide)⟩

/-! ## UUID codec -/

/-- C7: for every pair `(low, high)`, in particular every pair of 64-bit unsigned
integers, `uuidToString` returns exactly 36 characters: the two-digit lower-case
hexadecimal numerals of the bytes of the little-endian 8-byte encodings, laid out as the
bytes 0 to 3 of `low`, a hyphen, its bytes 4 and 5, a hyphen, its bytes 6 and 7, a hyphen,
the bytes 0 and 1 of `high`, a hyphen, its bytes 2 to 7; the pair `(0, 0)` gives the
all-zero string. -/
theorem C7_uuidToString_layout (low high : Nat) :
    uuidToString (some { Low := low, High := high }) = uuidLayout low high ∧
    (uuidToString (some { Low := low, High := high })).length = 36 ∧
    (∀ v i, (hex2 (leByte v i)).length = 2) ∧
    uuidToString (some { Low := 0, High := 0 }) = "00000000-0000-0000-0000-000000000000" := by
  have hl : ∀ v i, (hex2 (leByte v i)).length = 2 := fun v i => hex2_length _ (leByte_lt v i)
  refine ⟨uuidToString_eq_layout low high, ?_, hl, by decide⟩
  rw [uuidToString_eq_layout, uuidLayout]
  simp only [String.length_append, hl]
  rfl

/-! ## Dispatch -/

/-- C8: for an envelope of one of the six known event types, `ToV2` returns an envelope
whose payload is the variant fixed by the discriminator alone (LogMessage gives Log,
HttpStartStop gives Timer, ValueMetric gives Gauge, CounterEvent gives Counter, Error
gives Log, ContainerMetric gives Gauge), and the result is that of the one matching
converter run on the envelope as it stands at the `switch`. -/
theorem C8_payload_variant (T : EnumTables) (e : events.Envelope) :
    ∃ out, ToV2 T e = .ok out ∧
      (e.GetEventType = events.Envelope_LogMessage →
        (∃ l, out.Message = some (.Envelope_Log l)) ∧
        ToV2 T e = (ToV2.header T e).bind fun v2e => convertLogMessage T v2e e) ∧
      (e.GetEventType = events.Envelope_HttpStartStop →
        (∃ t, out.Message = some (.Envelope_Timer t)) ∧
        ToV2 T e = (ToV2.header T e).bind fun v2e => convertHTTPStartStop T v2e e) ∧
      (e.GetEventType = events.Envelope_ValueMetric →
        (∃ g, out.Message = some (.Envelope_Gauge g)) ∧
        ToV2 T e = (ToV2.header T e).bind fun v2e => convertValueMetric v2e e) ∧
      (e.GetEventType = events.Envelope_CounterEvent →
        (∃ c, out.Message = some (.Envelope_Counter c)) ∧
        ToV2 T e = (ToV2.header T e).bind fun v2e => convertCounterEvent v2e e) ∧
      (e.GetEventType = events.Envelope_Error →
        (∃ l, out.Message = some (.Envelope_Log l)) ∧
        ToV2 T e = (ToV2.header T e).bind fun v2e => convertError v2e e) ∧
      (e.GetEventType = events.Envelope_ContainerMetric →
        (∃ g, out.Message = some (.Envelope_Gauge g)) ∧
        ToV2 T e = (ToV2.header T e).bind fun v2e => convertContainerMetric v2e e) := by
  obtain ⟨out, _, hok, _⟩ := ToV2_spec T e
  refine ⟨out, hok, ?_, ?_, ?_, ?_, ?_, ?_⟩
  · intro h
    have hr := ToV2_LogMessage T e h
    rw [hok] at hr
    injection hr with hr
    refine ⟨⟨_, by rw [hr]⟩, ?_⟩
    simp only [ToV2, bind, if_pos h]
  · intro h
    have hr := ToV2_HttpStartStop T e h
    rw [hok] at hr
    injection hr with hr
    refine ⟨⟨_, by rw [hr]⟩, ?_⟩
    simp [ToV2, bind, h, events.Envelope_HttpStartStop, events.Envelope_LogMessage]
  · intro h
    have hr := ToV2_ValueMetric T e h
    rw [hok] at hr
    injection hr with hr
    refine ⟨⟨_, by rw [hr]⟩, ?_⟩
    simp [ToV2, bind, h, events.Envelope_HttpStartStop, events.Envelope_LogMessage,
      events.Envelope_ValueMetric]
  · intro h
    have hr := ToV2_CounterEvent T e h
    rw [hok] at hr
    injection hr with hr
    refine ⟨⟨_, by rw [hr]⟩, ?_⟩
    simp [ToV2, bind, h, events.Envelope_HttpStartStop, events.Envelope_LogMessage,
      events.Envelope_ValueMetric, events.Envelope_CounterEvent]
  · intro h
    have hr := ToV2_Error T e h
    rw [hok] at hr
    injection hr with hr
    refine ⟨⟨_, by rw [hr]⟩, ?_⟩
    simp [ToV2, bind, h, events.Envelope_HttpStartStop, events.Envelope_LogMessage,
      events.Envelope_ValueMetric, events.Envelope_CounterEvent, events.Envelope_Error]
  · intro h
    have hr := ToV2_ContainerMetric T e h
    rw [hok] at hr
    injection hr with hr
    refine ⟨⟨_, by rw [hr]⟩, ?_⟩
    simp [ToV2, bind, h, events.Envelope_HttpStartStop, events.Envelope_LogMessage,
      events.Envelope_ValueMetric, events.Envelope_CounterEvent, events.Envelope_Error,
      events.Envelope_ContainerMetric]

/-- C9: for an envelope whose discriminator is none of the six known event types,
`ToV2` returns, without error, an envelope with no payload, the timestamp of the input,
the generic defaults as `SourceId` and `InstanceId`, and as tags exactly the six header
tags and the input tags copied as text, without `source_id` and `instance_id`. -/
theorem C9_unrecognized (T : EnumTables) (e : events.Envelope)
    (h1 : e.GetEventType ≠ events.Envelope_LogMessage)
    (h2 : e.GetEventType ≠ events.Envelope_HttpStartStop)
    (h3 : e.GetEventType ≠ events.Envelope_ValueMetric)
    (h4 : e.GetEventType ≠ events.Envelope_CounterEvent)
    (h5 : e.GetEventType ≠ events.Envelope_Error)
    (h6 : e.GetEventType ≠ events.Envelope_ContainerMetric) :
    ∃ out tags, ToV2 T e = .ok out ∧ out.Message = none ∧
      out.Timestamp = e.GetTimestamp ∧
      out.SourceId = defaultSourceId e ∧ out.InstanceId = defaultInstanceId e ∧
      out.DeprecatedTags = some tags ∧
      ∀ k, tags.lookup k =
        if k = "instance_id" then none
        else if k = "source_id" then none
        else if k = "__v1_type" then
          some (v2.Value.Text (EnumName T.Envelope_EventType_name e.GetEventType))
        else if k = "ip" then some (v2.Value.Text e.GetIp)
        else if k = "index" then some (v2.Value.Text e.GetIndex)
        else if k = "job" then some (v2.Value.Text e.GetJob)
        else if k = "deployment" then some (v2.Value.Text e.GetDeployment)
        else if k = "origin" then some (v2.Value.Text e.GetOrigin)
        else (e.GetTags.lookup k).map v2.Value.Text := by
  refine ⟨_, _, ToV2_other T e h1 h2 h3 h4 h5 h6, rfl, rfl, rfl, rfl, rfl, fun k => ?_⟩
  rw [lookup_headerTags]
  simp only [headerTag, textOr_ite, textOr_none]

/-- C9 at an envelope of discriminator 1, deployment `d` and job `j`, without tags. -/
theorem C9_unrecognized_witness :
    ∃ out tags, ToV2 schemaTables envUnrecognized = .ok out ∧ out.Message = none ∧
      out.SourceId = "d/j" ∧ out.InstanceId = "" ∧ out.DeprecatedTags = some tags ∧
      tags.lookup "__v1_type" = some (v2.Value.Text "1") := by
  obtain ⟨out, tags, hok, hm, _, hs, hi, ht, hk⟩ :=
    C9_unrecognized schemaTables envUnrecognized (by decide) (by decide) (by decide)
      (by decide) (by decide) (by decide)
  exact ⟨out, tags, hok, hm, hs, hi, ht, (hk "__v1_type").trans rfl⟩

/-- C10: for every envelope, of every event type, `ToV2` returns an envelope whose tags
map `origin`, `deployment`, `job`, `index` and `ip` to the text of the header fields of
the input and `__v1_type` to the text name of the discriminator, whatever the input tags
hold under those keys and whatever the variant converter writes. -/
theorem C10_header_tags (T : EnumTables) (e : events.Envelope) :
    ∃ out tags, ToV2 T e = .ok out ∧ out.DeprecatedTags = some tags ∧
      tags.lookup "origin" = some (v2.Value.Text e.GetOrigin) ∧
      tags.lookup "deployment" = some (v2.Value.Text e.GetDeployment) ∧
      tags.lookup "job" = some (v2.Value.Text e.GetJob) ∧
      tags.lookup "index" = some (v2.Value.Text e.GetIndex) ∧
      tags.lookup "ip" = some (v2.Value.Text e.GetIp) ∧
      tags.lookup "__v1_type" =
        some (v2.Value.Text (EnumName T.Envelope_EventType_name e.GetEventType)) := by
  obtain ⟨out, tags, hok, _, _, _, ht, hk⟩ := ToV2_spec T e
  refine ⟨out, tags, hok, ht, ?_, ?_, ?_, ?_, ?_, ?_⟩ <;>
  · rw [hk, lookup_headerTags]
    simp only [variantTag, headerTag, String.reduceEq, if_false, if_true, ite_self, textOr_none,
      textOr_some]

/-! ## Payloads of the variant converters -/

theorem lookup_headerTags_generic (T : EnumTables) (e : events.Envelope) (k : String) :
    (headerTags T e).lookup k = genericTagAt T e k := by
  rw [lookup_headerTags]
  simp only [genericTagAt, headerTag, textOr_ite, textOr_none]

/-- C11: for a ContainerMetric envelope, `ToV2` returns an envelope whose payload is a
Gauge with exactly six metric entries: `instance_index` of unit `index`, `cpu` of unit
`percentage`, and `memory`, `disk`, `memory_quota`, `disk_quota` of unit `bytes`, with the
values of `instanceIndex`, `cpuPercentage`, `memoryBytes`, `diskBytes`, `memoryBytesQuota`
and `diskBytesQuota`, the integer fields widened to float64; its tags are the header tags
and the copied input tags, nothing more. -/
theorem C11_containerMetric_gauge (T : EnumTables) (e : events.Envelope)
    (h : e.GetEventType = events.Envelope_ContainerMetric) :
    ∃ out g tags, ToV2 T e = .ok out ∧ out.Message = some (.Envelope_Gauge g) ∧
      g.Metrics.entries.length = 6 ∧
      g.Metrics.lookup "instance_index" = some
        { Unit := "index"
          Value := Float.ofInt (events.ContainerMetric.GetInstanceIndex e.GetContainerMetric) } ∧
      g.Metrics.lookup "cpu" = some
        { Unit := "percentage"
          Value := events.ContainerMetric.GetCpuPercentage e.GetContainerMetric } ∧
      g.Metrics.lookup "memory" = some
        { Unit := "bytes"
          Value := Float.ofNat (events.ContainerMetric.GetMemoryBytes e.GetContainerMetric) } ∧
      g.Metrics.lookup "disk" = some
        { Unit := "bytes"
          Value := Float.ofNat (events.ContainerMetric.GetDiskBytes e.GetContainerMetric) } ∧
      g.Metrics.lookup "memory_quota" = some
        { Unit := "bytes"
          Value := Float.ofNat
            (events.ContainerMetric.GetMemoryBytesQuota e.GetContainerMetric) } ∧
      g.Metrics.lookup "disk_quota" = some
        { Unit := "bytes"
          Value := Float.ofNat (events.ContainerMetric.GetDiskBytesQuota e.GetContainerMetric) } ∧
      out.DeprecatedTags = some tags ∧ ∀ k, tags.lookup k = genericTagAt T e k :=
  ⟨_, _, _, ToV2_ContainerMetric T e h, rfl, rfl, rfl, rfl, rfl, rfl, rfl, rfl, rfl,
    fun k => lookup_headerTags_generic T e k⟩

/-- C11 at a ContainerMetric envelope of instance index 3 and 10 bytes of memory. -/
theorem C11_containerMetric_gauge_witness :
    ∃ out g, ToV2 schemaTables envContainerApp = .ok out ∧
      out.Message = some (.Envelope_Gauge g) ∧ g.Metrics.entries.length = 6 ∧
      g.Metrics.lookup "instance_index" = some { Unit := "index", Value := Float.ofInt 3 } ∧
      g.Metrics.lookup "memory" = some { Unit := "bytes", Value := Float.ofNat 10 } := by
  obtain ⟨out, g, _, hok, hm, hl, h1, _, h3, _⟩ :=
    C11_containerMetric_gauge schemaTables envContainerApp (by decide)
  exact ⟨out, g, hok, hm, hl, h1, h3⟩

/-- C12: for a ContainerMetric envelope, `ToV2` returns an envelope whose `SourceId` is
the `applicationId` of the payload when it is non-empty, whatever the tags, and the generic
default (the tag `source_id` if present, else deployment, a slash, job) when it is
empty. -/
theorem C12_containerMetric_sourceId (T : EnumTables) (e : events.Envelope)
    (h : e.GetEventType = events.Envelope_ContainerMetric) :
    ∃ out, ToV2 T e = .ok out ∧
      (events.ContainerMetric.GetApplicationId e.GetContainerMetric ≠ "" →
        out.SourceId = events.ContainerMetric.GetApplicationId e.GetContainerMetric) ∧
      (events.ContainerMetric.GetApplicationId e.GetContainerMetric = "" →
        (∀ v, e.GetTags.lookup "source_id" = some v → out.SourceId = v) ∧
        (e.GetTags.lookup "source_id" = none →
          out.SourceId = e.GetDeployment ++ "/" ++ e.GetJob)) := by
  obtain ⟨out, _, hok, _, hs, _⟩ := ToV2_spec T e
  have h1 : e.GetEventType ≠ events.Envelope_LogMessage := by rw [h]; decide
  have h2 : e.GetEventType ≠ events.Envelope_HttpStartStop := by rw [h]; decide
  rw [variantSourceId, if_neg h1, if_neg h2, if_pos h] at hs
  refine ⟨out, hok, ?_, ?_⟩
  · intro ha
    rw [hs, convertAppID, if_neg ha]
  · intro ha
    rw [convertAppID, if_pos ha] at hs
    constructor
    · intro v hv
      rw [hs, defaultSourceId, hv]
    · intro hv
      rw [hs, defaultSourceId, hv]

/-- C12 at a ContainerMetric envelope of `applicationId = app` whose tags carry
`source_id = abc`. -/
theorem C12_containerMetric_sourceId_witness :
    ∃ out, ToV2 schemaTables envContainerApp = .ok out ∧ out.SourceId = "app" := by
  obtain ⟨out, hok, h, _⟩ := C12_containerMetric_sourceId schemaTables envContainerApp (by decide)
  exact ⟨out, hok, h (by decide)⟩

theorem uuidToString_zero (u : Option events.UUID) (hl : events.UUID.GetLow u = 0)
    (hh : events.UUID.GetHigh u = 0) :
    uuidToString u = "00000000-0000-0000-0000-000000000000" := by
  unfold uuidToString
  rw [hl, hh]
  decide

/-- C13: for an HttpStartStop envelope, `ToV2` returns an envelope whose payload is the
Timer of name `http` with the start and stop timestamps of the input, and whose tags hold
as text: under `request_id` the UUID string of `requestId` (the all-zero string for the
all-zero pair), under `peer_type` and `method` the enum names, under `uri`,
`remote_address`, `user_agent` the strings, under `status_code`, `content_length`,
`instance_index` the decimal rendering of the integers, under `routing_instance_id` the
`instanceId` of the payload, and under `forwarded` the forwarded list joined with newlines
(the empty string for the empty list). -/
theorem C13_httpStartStop (T : EnumTables) (e : events.Envelope)
    (h : e.GetEventType = events.Envelope_HttpStartStop) :
    ∃ out tags, ToV2 T e = .ok out ∧
      out.Message = some (.Envelope_Timer
        { Name := "http"
          Start := events.HttpStartStop.GetStartTimestamp e.GetHttpStartStop
          Stop := events.HttpStartStop.GetStopTimestamp e.GetHttpStartStop }) ∧
      out.DeprecatedTags = some tags ∧
      tags.lookup "request_id" = some (v2.Value.Text
        (uuidToString (events.HttpStartStop.GetRequestId e.GetHttpStartStop))) ∧
      (events.UUID.GetLow (events.HttpStartStop.GetRequestId e.GetHttpStartStop) = 0 →
        events.UUID.GetHigh (events.HttpStartStop.GetRequestId e.GetHttpStartStop) = 0 →
        tags.lookup "request_id" =
          some (v2.Value.Text "00000000-0000-0000-0000-000000000000")) ∧
      tags.lookup "peer_type" = some (v2.Value.Text
        (EnumName T.PeerType_name (events.HttpStartStop.GetPeerType e.GetHttpStartStop))) ∧
      tags.lookup "method" = some (v2.Value.Text
        (EnumName T.Method_name (events.HttpStartStop.GetMethod e.GetHttpStartStop))) ∧
      tags.lookup "uri" =
        some (v2.Value.Text (events.HttpStartStop.GetUri e.GetHttpStartStop)) ∧
      tags.lookup "remote_address" =
        some (v2.Value.Text (events.HttpStartStop.GetRemoteAddress e.GetHttpStartStop)) ∧
      tags.lookup "user_agent" =
        some (v2.Value.Text (events.HttpStartStop.GetUserAgent e.GetHttpStartStop)) ∧
      tags.lookup "status_code" =
        some (v2.Value.Text (toString (events.HttpStartStop.GetStatusCode e.GetHttpStartStop))) ∧
      tags.lookup "content_length" = some (v2.Value.Text
        (toString (events.HttpStartStop.GetContentLength e.GetHttpStartStop))) ∧
      tags.lookup "instance_index" = some (v2.Value.Text
        (toString (events.HttpStartStop.GetInstanceIndex e.GetHttpStartStop))) ∧
      tags.lookup "routing_instance_id" =
        some (v2.Value.Text (events.HttpStartStop.GetInstanceId e.GetHttpStartStop)) ∧
      tags.lookup "forwarded" = some (v2.Value.Text
        (strings_Join (events.HttpStartStop.GetForwarded e.GetHttpStartStop) "\n")) ∧
      (events.HttpStartStop.GetForwarded e.GetHttpStartStop = [] →
        tags.lookup "forwarded" = some (v2.Value.Text "")) := by
  have hreq : AList.lookup "request_id"
      ((headerTags T e)
        |>.insert "request_id"
          (.Text (uuidToString (events.HttpStartStop.GetRequestId e.GetHttpStartStop)))
        |>.insert "peer_type"
          (.Text (EnumName T.PeerType_name (events.HttpStartStop.GetPeerType e.GetHttpStartStop)))
        |>.insert "method"
          (.Text (EnumName T.Method_name (events.HttpStartStop.GetMethod e.GetHttpStartStop)))
        |>.insert "uri" (.Text (events.HttpStartStop.GetUri e.GetHttpStartStop))
        |>.insert "remote_address"
          (.Text (events.HttpStartStop.GetRemoteAddress e.GetHttpStartStop))
        |>.insert "user_agent" (.Text (events.HttpStartStop.GetUserAgent e.GetHttpStartStop))
        |>.insert "status_code"
          (.Text (toString (events.HttpStartStop.GetStatusCode e.GetHttpStartStop)))
        |>.insert "content_length"
          (.Text (toString (events.HttpStartStop.GetContentLength e.GetHttpStartStop)))
        |>.insert "instance_index"
          (.Text (toString (events.HttpStartStop.GetInstanceIndex e.GetHttpStartStop)))
        |>.insert "routing_instance_id"
          (.Text (events.HttpStartStop.GetInstanceId e.GetHttpStartStop))
        |>.insert "forwarded"
          (.Text (strings_Join (events.HttpStartStop.GetForwarded e.GetHttpStartStop) "\n")))
      = some (v2.Value.Text
        (uuidToString (events.HttpStartStop.GetRequestId e.GetHttpStartStop))) := by
    simp only [lookup_insert_ite, String.reduceEq, if_true, if_false]
  refine ⟨_, _, ToV2_HttpStartStop T e h, rfl, rfl, hreq, ?_, ?_, ?_, ?_, ?_, ?_, ?_, ?_, ?_,
    ?_, ?_, ?_⟩
  · intro hl hh
    rw [hreq, uuidToString_zero _ hl hh]
  · simp only [lookup_insert_ite, String.reduceEq, if_true, if_false]
  · simp only [lookup_insert_ite, String.reduceEq, if_true, if_false]
  · simp only [lookup_insert_ite, String.reduceEq, if_true, if_false]
  · simp only [lookup_insert_ite, String.reduceEq, if_true, if_false]
  · simp only [lookup_insert_ite, String.reduceEq, if_true, if_false]
  · simp only [lookup_insert_ite, String.reduceEq, if_true, if_false]
  · simp only [lookup_insert_ite, String.reduceEq, if_true, if_false]
  · simp only [lookup_insert_ite, String.reduceEq, if_true, if_false]
  · simp only [lookup_insert_ite, String.reduceEq, if_true, if_false]
  · simp only [lookup_insert_ite, String.reduceEq, if_true, if_false]
  · intro hf
    simp only [lookup_insert_ite, String.reduceEq, if_true, if_false, hf]
    rfl

/-- C13 at an HttpStartStop envelope of status code 200 without a request id. -/
theorem C13_httpStartStop_witness :
    ∃ out tags, ToV2 schemaTables envHttpApp = .ok out ∧
      out.Message = some (.Envelope_Timer { Name := "http", Start := 1, Stop := 2 }) ∧
      out.DeprecatedTags = some tags ∧
      tags.lookup "request_id" = some (v2.Value.Text "00000000-0000-0000-0000-000000000000") ∧
      tags.lookup "status_code" = some (v2.Value.Text "200") ∧
      tags.lookup "method" = some (v2.Value.Text "GET") ∧
      tags.lookup "forwarded" = some (v2.Value.Text "") := by
  obtain ⟨out, tags, hok, hm, ht, _, hz, _, hmeth, _, _, _, hsc, _, _, _, _, hf⟩ :=
    C13_httpStartStop schemaTables envHttpApp (by decide)
  exact ⟨out, tags, hok, hm, ht, hz rfl rfl, hsc.trans rfl, hmeth.trans rfl, hf rfl⟩

/-- C14: for a LogMessage envelope, `ToV2` returns an envelope whose payload is the Log
with the message bytes of the input and the type `convertLogMessageType` gives, and whose
tags hold the text of `sourceType` under `source_type`. The type is the value of the new
enumeration with the symbolic name of the legacy message type (OUT gives OUT and ERR gives
ERR in the tables of the schemas); a legacy value without a symbolic name, or with a name
the new enumeration does not have, gives the zero value, not a failure. -/
theorem C14_logMessage (T : EnumTables) (e : events.Envelope)
    (h : e.GetEventType = events.Envelope_LogMessage) :
    ∃ out tags, ToV2 T e = .ok out ∧
      out.Message = some (.Envelope_Log
        { Payload := events.LogMessage.GetMessage e.GetLogMessage
          LogType :=
            convertLogMessageType T (events.LogMessage.GetMessageType e.GetLogMessage) }) ∧
      out.DeprecatedTags = some tags ∧
      tags.lookup "source_type" =
        some (v2.Value.Text (events.LogMessage.GetSourceType e.GetLogMessage)) ∧
      (∀ t name v, T.LogMessage_MessageType_name t = some name →
        T.Log_Type_value name = some v → convertLogMessageType T t = v) ∧
      (∀ t, T.LogMessage_MessageType_name t = none → T.Log_Type_value "" = none →
        convertLogMessageType T t = 0) ∧
      (∀ t name, T.LogMessage_MessageType_name t = some name →
        T.Log_Type_value name = none → convertLogMessageType T t = 0) ∧
      convertLogMessageType schemaTables events.LogMessage_OUT = v2.Log_OUT ∧
      convertLogMessageType schemaTables events.LogMessage_ERR = v2.Log_ERR ∧
      (∀ t, t ≠ events.LogMessage_OUT → t ≠ events.LogMessage_ERR →
        convertLogMessageType schemaTables t = 0) := by
  refine ⟨_, _, ToV2_LogMessage T e h, rfl, rfl, ?_, ?_, ?_, ?_, rfl, rfl, ?_⟩
  · exact AList.lookup_insert _
  · intro t name v hn hv
    simp only [convertLogMessageType, hn, Option.getD_some, hv]
  · intro t hn hv
    simp only [convertLogMessageType, hn, Option.getD_none, hv]
  · intro t name hn hv
    simp only [convertLogMessageType, hn, Option.getD_some, hv, Option.getD_none]
  · intro t h1 h2
    simp only [events.LogMessage_OUT, events.LogMessage_ERR] at h1 h2
    simp [convertLogMessageType, schemaTables, h1, h2]

/-- C14 at a LogMessage envelope of message type OUT and source type `APP`. -/
theorem C14_logMessage_witness :
    ∃ out tags, ToV2 schemaTables envLogApp1 = .ok out ∧
      out.Message = some (.Envelope_Log { Payload := [], LogType := v2.Log_OUT }) ∧
      out.DeprecatedTags = some tags ∧
      tags.lookup "source_type" = some (v2.Value.Text "APP") := by
  obtain ⟨out, tags, hok, hm, ht, hs, _⟩ := C14_logMessage schemaTables envLogApp1 (by decide)
  exact ⟨out, tags, hok, hm, ht, hs⟩

/-- C15: for an Error envelope, `ToV2` returns an envelope whose payload is the Log of
type OUT with the bytes of the message string of the error, whose tags hold the text of
the source and of the code of the error under `source` and `code`, and whose `SourceId`
and `InstanceId` are the generic defaults. -/
theorem C15_error (T : EnumTables) (e : events.Envelope)
    (h : e.GetEventType = events.Envelope_Error) :
    ∃ out tags, ToV2 T e = .ok out ∧
      out.Message = some (.Envelope_Log
        { Payload := (events.Error.GetMessage e.GetError).toUTF8.data.toList
          LogType := v2.Log_OUT }) ∧
      out.DeprecatedTags = some tags ∧
      tags.lookup "source" = some (v2.Value.Text (events.Error.GetSource e.GetError)) ∧
      tags.lookup "code" = some (v2.Value.Text (events.Error.GetCode e.GetError)) ∧
      out.SourceId = defaultSourceId e ∧ out.InstanceId = defaultInstanceId e := by
  refine ⟨_, _, ToV2_Error T e h, rfl, rfl, ?_, ?_, rfl, rfl⟩
  · simp only [lookup_insert_ite, String.reduceEq, if_true, if_false]
  · simp only [lookup_insert_ite, String.reduceEq, if_true, if_false]

/-- C15 at an Error envelope of source `s`, code `c` and message `boom`, of deployment
`d` and job `j`. -/
theorem C15_error_witness :
    ∃ out tags, ToV2 schemaTables envErrorBoom = .ok out ∧
      out.Message = some (.Envelope_Log { Payload := [98, 111, 111, 109], LogType := 0 }) ∧
      out.DeprecatedTags = some tags ∧
      tags.lookup "source" = some (v2.Value.Text "s") ∧
      tags.lookup "code" = some (v2.Value.Text "c") ∧
      out.SourceId = "d/j" ∧ out.InstanceId = "" := by
  obtain ⟨out, tags, hok, hm, ht, h1, h2, hs, hi⟩ := C15_error schemaTables envErrorBoom (by decide)
  exact ⟨out, tags, hok, hm.trans rfl, ht, h1, h2, hs.trans rfl, hi.trans rfl⟩

/-- C16: for a CounterEvent envelope, `ToV2` returns an envelope whose payload is the
Counter with the name of the event and the Total variant carrying its total, never the
Delta variant, and whose tags are the header tags and the copied input tags, nothing
more. -/
theorem C16_counterEvent (T : EnumTables) (e : events.Envelope)
    (h : e.GetEventType = events.Envelope_CounterEvent) :
    ∃ out c tags, ToV2 T e = .ok out ∧ out.Message = some (.Envelope_Counter c) ∧
      c.Name = events.CounterEvent.GetName e.GetCounterEvent ∧
      c.Value = some (.Total (events.CounterEvent.GetTotal e.GetCounterEvent)) ∧
      (∀ n, c.Value ≠ some (.Delta n)) ∧
      out.DeprecatedTags = some tags ∧ ∀ k, tags.lookup k = genericTagAt T e k := by
  refine ⟨_, _, _, ToV2_CounterEvent T e h, rfl, rfl, rfl, ?_, rfl,
    fun k => lookup_headerTags_generic T e k⟩
  intro n hn
  cases hn

/-- C16 at a CounterEvent envelope of name `requests` and total 5. -/
theorem C16_counterEvent_witness :
    ∃ out, ToV2 schemaTables envCounterFive = .ok out ∧
      out.Message = some (.Envelope_Counter { Name := "requests", Value := some (.Total 5) }) := by
  obtain ⟨out, c, _, hok, hm, hn, hv, _⟩ := C16_counterEvent schemaTables envCounterFive (by decide)
  refine ⟨out, hok, ?_⟩
  rw [hm]
  cases c
  simp only at hn hv
  rw [hn, hv]
  rfl

/-- C17: for a ValueMetric envelope, `ToV2` returns an envelope whose payload is the
Gauge with exactly one metric entry, under the name of the metric, with its unit and its
value, and whose tags are the header tags and the copied input tags, nothing more. -/
theorem C17_valueMetric (T : EnumTables) (e : events.Envelope)
    (h : e.GetEventType = events.Envelope_ValueMetric) :
    ∃ out g tags, ToV2 T e = .ok out ∧ out.Message = some (.Envelope_Gauge g) ∧
      g.Metrics.entries =
        [⟨events.ValueMetric.GetName e.GetValueMetric,
          { Unit := events.ValueMetric.GetUnit e.GetValueMetric
            Value := events.ValueMetric.GetValue e.GetValueMetric }⟩] ∧
      g.Metrics.lookup (events.ValueMetric.GetName e.GetValueMetric) = some
        { Unit := events.ValueMetric.GetUnit e.GetValueMetric
          Value := events.ValueMetric.GetValue e.GetValueMetric } ∧
      out.DeprecatedTags = some tags ∧ ∀ k, tags.lookup k = genericTagAt T e k :=
  ⟨_, _, _, ToV2_ValueMetric T e h, rfl, rfl, AList.lookup_insert _, rfl,
    fun k => lookup_headerTags_generic T e k⟩

/-- C17 at a ValueMetric envelope of name `latency`, unit `ms` and value 1.5. -/
theorem C17_valueMetric_witness :
    ∃ out g, ToV2 schemaTables envGaugeLatency = .ok out ∧
      out.Message = some (.Envelope_Gauge g) ∧
      g.Metrics.entries = [⟨"latency", { Unit := "ms", Value := 1.5 }⟩] := by
  obtain ⟨out, g, _, hok, hm, he, _⟩ := C17_valueMetric schemaTables envGaugeLatency (by decide)
  exact ⟨out, g, hok, hm, he⟩

/-! ## Totality and the type of the tags -/

theorem genericTagAt_text (T : EnumTables) (e : events.Envelope) (k : String) (v : v2.Value)
    (h : genericTagAt T e k = some v) : ∃ s, v = v2.Value.Text s := by
  unfold genericTagAt at h
  split_ifs at h
  all_goals first
    | exact ⟨_, (Option.some.inj h).symm⟩
    | (cases hl : AList.lookup k e.GetTags with
        | none => rw [hl] at h; cases h
        | some s => rw [hl] at h; exact ⟨s, (Option.some.inj h).symm⟩)

theorem textOr_text (o : Option String) (d : Option v2.Value) (v : v2.Value)
    (hd : d = some v → ∃ s, v = v2.Value.Text s) (h : textOr o d = some v) :
    ∃ s, v = v2.Value.Text s := by
  cases o with
  | none => exact hd h
  | some s => exact ⟨s, (Option.some.inj h).symm⟩

/-- C18: `ToV2` is total. For every envelope, whatever is absent in it, it returns an
envelope with a tag mapping that is not nil and the timestamp of the input; where the
discriminator names a known event kind and the payload of that kind is absent, the payload
of the result is the variant of that kind built from the default field values: an empty
Log for LogMessage and Error, the Timer `http` from 0 to 0 for HttpStartStop, the Gauge
with one entry under the empty name for ValueMetric, the Counter of empty name and total 0
for CounterEvent, the Gauge of six zero entries for ContainerMetric. -/
theorem C18_total (T : EnumTables) (e : events.Envelope) :
    ∃ out tags, ToV2 T e = .ok out ∧ out.DeprecatedTags = some tags ∧
      out.Timestamp = e.GetTimestamp ∧
      (e.GetEventType = events.Envelope_LogMessage → e.GetLogMessage = none →
        out.Message = some (.Envelope_Log
          { Payload := [], LogType := convertLogMessageType T events.LogMessage_OUT })) ∧
      (e.GetEventType = events.Envelope_HttpStartStop → e.GetHttpStartStop = none →
        out.Message = some (.Envelope_Timer { Name := "http", Start := 0, Stop := 0 })) ∧
      (e.GetEventType = events.Envelope_ValueMetric → e.GetValueMetric = none →
        ∃ g, out.Message = some (.Envelope_Gauge g) ∧
          g.Metrics.entries = [⟨"", { Unit := "", Value := 0 }⟩]) ∧
      (e.GetEventType = events.Envelope_CounterEvent → e.GetCounterEvent = none →
        out.Message = some (.Envelope_Counter { Name := "", Value := some (.Total 0) })) ∧
      (e.GetEventType = events.Envelope_Error → e.GetError = none →
        out.Message = some (.Envelope_Log { Payload := [], LogType := v2.Log_OUT })) ∧
      (e.GetEventType = events.Envelope_ContainerMetric → e.GetContainerMetric = none →
        ∃ g, out.Message = some (.Envelope_Gauge g) ∧ g.Metrics.entries.length = 6 ∧
          g.Metrics.lookup "instance_index" = some { Unit := "index", Value := Float.ofInt 0 } ∧
          g.Metrics.lookup "cpu" = some { Unit := "percentage", Value := 0 } ∧
          g.Metrics.lookup "memory" = some { Unit := "bytes", Value := Float.ofNat 0 } ∧
          g.Metrics.lookup "disk" = some { Unit := "bytes", Value := Float.ofNat 0 } ∧
          g.Metrics.lookup "memory_quota" = some { Unit := "bytes", Value := Float.ofNat 0 } ∧
          g.Metrics.lookup "disk_quota" = some { Unit := "bytes", Value := Float.ofNat 0 }) := by
  obtain ⟨out, tags, hok, hts, _, _, ht, _⟩ := ToV2_spec T e
  refine ⟨out, tags, hok, ht, hts, ?_, ?_, ?_, ?_, ?_, ?_⟩
  · intro h hp
    have hr := ToV2_LogMessage T e h
    rw [hok, hp] at hr
    injection hr with hr
    rw [hr]
    rfl
  · intro h hp
    have hr := ToV2_HttpStartStop T e h
    rw [hok, hp] at hr
    injection hr with hr
    rw [hr]
    rfl
  · intro h hp
    have hr := ToV2_ValueMetric T e h
    rw [hok, hp] at hr
    injection hr with hr
    rw [hr]
    exact ⟨_, rfl, rfl⟩
  · intro h hp
    have hr := ToV2_CounterEvent T e h
    rw [hok, hp] at hr
    injection hr with hr
    rw [hr]
    rfl
  · intro h hp
    have hr := ToV2_Error T e h
    rw [hok, hp] at hr
    injection hr with hr
    rw [hr]
    rfl
  · intro h hp
    have hr := ToV2_ContainerMetric T e h
    rw [hok, hp] at hr
    injection hr with hr
    rw [hr]
    exact ⟨_, rfl, rfl, rfl, rfl, rfl, rfl, rfl, rfl⟩

/-- C18 at the envelope with every field absent and no tags: a result with a tag
mapping. -/
theorem C18_total_witness :
    ∃ out tags, ToV2 schemaTables emptyEnvelope = .ok out ∧ out.DeprecatedTags = some tags ∧
      out.Timestamp = 0 := by
  obtain ⟨out, tags, hok, ht, hts, _⟩ := C18_total schemaTables emptyEnvelope
  exact ⟨out, tags, hok, ht, hts⟩

/-- C19: for every envelope, every value of the tag mapping of the envelope `ToV2`
returns is of the text variant: none is integer-typed, none is decimal-typed; so are the
tags `status_code`, `content_length` and `instance_index` of HttpStartStop, which come
from integer fields. -/
theorem C19_tags_are_text (T : EnumTables) (e : events.Envelope) :
    ∃ out tags, ToV2 T e = .ok out ∧ out.DeprecatedTags = some tags ∧
      (∀ k v, tags.lookup k = some v → ∃ s, v = v2.Value.Text s) ∧
      (∀ k i, tags.lookup k ≠ some (v2.Value.Integer i)) ∧
      (∀ k f, tags.lookup k ≠ some (v2.Value.Decimal f)) ∧
      (e.GetEventType = events.Envelope_HttpStartStop →
        tags.lookup "status_code" = some (v2.Value.Text
          (toString (events.HttpStartStop.GetStatusCode e.GetHttpStartStop))) ∧
        tags.lookup "content_length" = some (v2.Value.Text
          (toString (events.HttpStartStop.GetContentLength e.GetHttpStartStop))) ∧
        tags.lookup "instance_index" = some (v2.Value.Text
          (toString (events.HttpStartStop.GetInstanceIndex e.GetHttpStartStop)))) := by
  obtain ⟨out, tags, hok, _, _, _, ht, hk⟩ := ToV2_spec T e
  have htext : ∀ k v, tags.lookup k = some v → ∃ s, v = v2.Value.Text s := by
    intro k v hv
    rw [hk, lookup_headerTags_generic] at hv
    exact textOr_text _ _ v (genericTagAt_text T e k v) hv
  refine ⟨out, tags, hok, ht, htext, ?_, ?_, ?_⟩
  · intro k i hv
    obtain ⟨s, hs⟩ := htext k _ hv
    cases hs
  · intro k f hv
    obtain ⟨s, hs⟩ := htext k _ hv
    cases hs
  · intro h
    have h1 : e.GetEventType ≠ events.Envelope_LogMessage := by rw [h]; decide
    refine ⟨?_, ?_, ?_⟩ <;>
    · rw [hk, variantTag, if_neg h1, if_pos h]
      simp only [String.reduceEq, if_false, if_true, textOr_some]

/-! ## Lemmas: injectivity of the UUID codec -/

theorem ldigits_getD_inj : ∀ m, m < 16 → ∀ n, n < 16 →
    ldigits.getD m '0' = ldigits.getD n '0' → m = n := by
  decide

theorem hexByte_inj (a b : Nat) (ha : a < 256) (hb : b < 256)
    (h1 : ldigits.getD (a >>> 4) '0' = ldigits.getD (b >>> 4) '0')
    (h2 : ldigits.getD (a &&& 0xF) '0' = ldigits.getD (b &&& 0xF) '0') : a = b := by
  have e1 : a &&& 0xF = a % 16 := Nat.and_pow_two_sub_one_eq_mod a 4
  have e2 : b &&& 0xF = b % 16 := Nat.and_pow_two_sub_one_eq_mod b 4
  rw [e1, e2] at h2
  rw [Nat.shiftRight_eq_div_pow, Nat.shiftRight_eq_div_pow] at h1
  have k1 := ldigits_getD_inj (a / 2 ^ 4) (by omega) (b / 2 ^ 4) (by omega) h1
  have k2 := ldigits_getD_inj (a % 16) (by omega) (b % 16) (by omega) h2
  omega

theorem uuidToString_data (low high : Nat) :
    (uuidToString (some { Low := low, High := high })).data =
      (([leByte low 0, leByte low 1, leByte low 2, leByte low 3].flatMap fun c =>
          [ldigits.getD (c >>> 4) '0', ldigits.getD (c &&& 0xF) '0']) ++ '-' ::
        (([leByte low 4, leByte low 5].flatMap fun c =>
          [ldigits.getD (c >>> 4) '0', ldigits.getD (c &&& 0xF) '0']) ++ '-' ::
        (([leByte low 6, leByte low 7].flatMap fun c =>
          [ldigits.getD (c >>> 4) '0', ldigits.getD (c &&& 0xF) '0']) ++ '-' ::
        (([leByte high 0, leByte high 1].flatMap fun c =>
          [ldigits.getD (c >>> 4) '0', ldigits.getD (c &&& 0xF) '0']) ++ '-' ::
        ([leByte high 2, leByte high 3, leByte high 4, leByte high 5, leByte high 6,
            leByte high 7].flatMap fun c =>
          [ldigits.getD (c >>> 4) '0', ldigits.getD (c &&& 0xF) '0']))))) := by
  unfold uuidToString
  rw [events.UUID.GetLow, events.UUID.GetHigh, PutUint64_eq, PutUint64_eq]
  rfl

theorem leBytes_inj (v w : Nat) (hv : v < 2 ^ 64) (hw : w < 2 ^ 64)
    (h0 : leByte v 0 = leByte w 0) (h1 : leByte v 1 = leByte w 1)
    (h2 : leByte v 2 = leByte w 2) (h3 : leByte v 3 = leByte w 3)
    (h4 : leByte v 4 = leByte w 4) (h5 : leByte v 5 = leByte w 5)
    (h6 : leByte v 6 = leByte w 6) (h7 : leByte v 7 = leByte w 7) : v = w := by
  simp only [leByte] at h0 h1 h2 h3 h4 h5 h6 h7
  norm_num at h0 h1 h2 h3 h4 h5 h6 h7 hv hw
  omega

theorem uuidToString_inj (low1 high1 low2 high2 : Nat)
    (hl1 : low1 < 2 ^ 64) (hh1 : high1 < 2 ^ 64) (hl2 : low2 < 2 ^ 64) (hh2 : high2 < 2 ^ 64)
    (h : uuidToString (some { Low := low1, High := high1 })
      = uuidToString (some { Low := low2, High := high2 })) :
    low1 = low2 ∧ high1 = high2 := by
  have hd := congrArg String.data h
  rw [uuidToString_data, uuidToString_data] at hd
  simp only [List.flatMap_cons, List.flatMap_nil, List.cons_append, List.nil_append,
    List.append_nil, List.cons.injEq, and_true, true_and] at hd
  obtain ⟨a0, b0, a1, b1, a2, b2, a3, b3, a4, b4, a5, b5, a6, b6, a7, b7,
    c0, d0, c1, d1, c2, d2, c3, d3, c4, d4, c5, d5, c6, d6, c7, d7⟩ := hd
  have lt := leByte_lt
  exact ⟨leBytes_inj low1 low2 hl1 hl2
      (hexByte_inj _ _ (lt _ _) (lt _ _) a0 b0) (hexByte_inj _ _ (lt _ _) (lt _ _) a1 b1)
      (hexByte_inj _ _ (lt _ _) (lt _ _) a2 b2) (hexByte_inj _ _ (lt _ _) (lt _ _) a3 b3)
      (hexByte_inj _ _ (lt _ _) (lt _ _) a4 b4) (hexByte_inj _ _ (lt _ _) (lt _ _) a5 b5)
      (hexByte_inj _ _ (lt _ _) (lt _ _) a6 b6) (hexByte_inj _ _ (lt _ _) (lt _ _) a7 b7),
    leBytes_inj high1 high2 hh1 hh2
      (hexByte_inj _ _ (lt _ _) (lt _ _) c0 d0) (hexByte_inj _ _ (lt _ _) (lt _ _) c1 d1)
      (hexByte_inj _ _ (lt _ _) (lt _ _) c2 d2) (hexByte_inj _ _ (lt _ _) (lt _ _) c3 d3)
      (hexByte_inj _ _ (lt _ _) (lt _ _) c4 d4) (hexByte_inj _ _ (lt _ _) (lt _ _) c5 d5)
      (hexByte_inj _ _ (lt _ _) (lt _ _) c6 d6) (hexByte_inj _ _ (lt _ _) (lt _ _) c7 d7)⟩

theorem uuidToString_eq_iff (low1 high1 low2 high2 : Nat)
    (hl1 : low1 < 2 ^ 64) (hh1 : high1 < 2 ^ 64) (hl2 : low2 < 2 ^ 64) (hh2 : high2 < 2 ^ 64) :
    uuidToString (some { Low := low1, High := high1 })
        = uuidToString (some { Low := low2, High := high2 })
      ↔ low1 = low2 ∧ high1 = high2 := by
  constructor
  · exact uuidToString_inj low1 high1 low2 high2 hl1 hh1 hl2 hh2
  · rintro ⟨rfl, rfl⟩
    rfl

theorem uuidToString_getters (u : Option events.UUID) :
    uuidToString u
      = uuidToString (some { Low := events.UUID.GetLow u, High := events.UUID.GetHigh u }) := by
  cases u <;> rfl

theorem uuidToString_eq_iff_getters (u w : Option events.UUID)
    (hu : events.UUID.GetLow u < 2 ^ 64 ∧ events.UUID.GetHigh u < 2 ^ 64)
    (hw : events.UUID.GetLow w < 2 ^ 64 ∧ events.UUID.GetHigh w < 2 ^ 64) :
    uuidToString u = uuidToString w
      ↔ events.UUID.GetLow u = events.UUID.GetLow w ∧
        events.UUID.GetHigh u = events.UUID.GetHigh w := by
  rw [uuidToString_getters u, uuidToString_getters w]
  exact uuidToString_eq_iff _ _ _ _ hu.1 hu.2 hw.1 hw.2

theorem ToV2_HttpStartStop_ids (T : EnumTables) (e : events.Envelope)
    (h : e.GetEventType = events.Envelope_HttpStartStop) :
    ∃ out tags, ToV2 T e = .ok out ∧ out.DeprecatedTags = some tags ∧
      out.SourceId = convertAppUUID (events.HttpStartStop.GetApplicationId e.GetHttpStartStop)
        (defaultSourceId e) ∧
      tags.lookup "request_id" = some (v2.Value.Text
        (uuidToString (events.HttpStartStop.GetRequestId e.GetHttpStartStop))) := by
  obtain ⟨out, tags, hok, _, hs, _, ht, hk⟩ := ToV2_spec T e
  have h1 : e.GetEventType ≠ events.Envelope_LogMessage := by rw [h]; decide
  refine ⟨out, tags, hok, ht, ?_, ?_⟩
  · rw [hs, variantSourceId, if_neg h1, if_pos h]
  · rw [hk, variantTag, if_neg h1, if_pos h]
    simp only [String.reduceEq, if_false, if_true, textOr_some]

/-- C20 fails as stated: the HttpStartStop envelope whose `applicationId` is the all-zero
pair, with the input tag `source_id` set to the UUID string of `(1, 0)`, and the
HttpStartStop envelope of `applicationId = (1, 0)` have distinct application ids and the
same `SourceId`: `convertAppUUID` returns the generic default for the all-zero pair. -/
theorem C20_counterexample :
    events.HttpStartStop.GetApplicationId envHttpZeroApp.GetHttpStartStop
      = some { Low := 0, High := 0 } ∧
    events.HttpStartStop.GetApplicationId envHttpApp.GetHttpStartStop
      = some { Low := 1, High := 0 } ∧
    events.UUID.GetLow (events.HttpStartStop.GetApplicationId envHttpZeroApp.GetHttpStartStop)
      ≠ events.UUID.GetLow (events.HttpStartStop.GetApplicationId envHttpApp.GetHttpStartStop) ∧
    ∃ out1 out2, ToV2 schemaTables envHttpZeroApp = .ok out1 ∧
      ToV2 schemaTables envHttpApp = .ok out2 ∧
      out1.SourceId = "01000000-0000-0000-0000-000000000000" ∧
      out2.SourceId = "01000000-0000-0000-0000-000000000000" ∧
      out1.SourceId = out2.SourceId :=
  ⟨rfl, rfl, by decide, _, _, rfl, rfl, by decide, by decide, by decide⟩

/-- C20, amended: `uuidToString` is injective on pairs of 64-bit unsigned integers (two
pairs have the same string exactly when they have the same `low` and the same `high`).
Hence, for two HttpStartStop envelopes with 64-bit ids, the `request_id` tags of the
results of `ToV2` are the same exactly when the request ids are, and, when neither
`applicationId` is the all-zero pair, the `SourceId`s of the results are the same exactly
when the application ids are. -/
theorem C20_uuid_texts_distinct (T : EnumTables) (e1 e2 : events.Envelope)
    (h1 : e1.GetEventType = events.Envelope_HttpStartStop)
    (h2 : e2.GetEventType = events.Envelope_HttpStartStop)
    (ha1 : events.UUID.GetLow (events.HttpStartStop.GetApplicationId e1.GetHttpStartStop) < 2 ^ 64 ∧
      events.UUID.GetHigh (events.HttpStartStop.GetApplicationId e1.GetHttpStartStop) < 2 ^ 64)
    (ha2 : events.UUID.GetLow (events.HttpStartStop.GetApplicationId e2.GetHttpStartStop) < 2 ^ 64 ∧
      events.UUID.GetHigh (events.HttpStartStop.GetApplicationId e2.GetHttpStartStop) < 2 ^ 64)
    (hr1 : events.UUID.GetLow (events.HttpStartStop.GetRequestId e1.GetHttpStartStop) < 2 ^ 64 ∧
      events.UUID.GetHigh (events.HttpStartStop.GetRequestId e1.GetHttpStartStop) < 2 ^ 64)
    (hr2 : events.UUID.GetLow (events.HttpStartStop.GetRequestId e2.GetHttpStartStop) < 2 ^ 64 ∧
      events.UUID.GetHigh (events.HttpStartStop.GetRequestId e2.GetHttpStartStop) < 2 ^ 64) :
    (∀ low1 high1 low2 high2 : Nat,
      low1 < 2 ^ 64 → high1 < 2 ^ 64 → low2 < 2 ^ 64 → high2 < 2 ^ 64 →
      (uuidToString (some { Low := low1, High := high1 })
          = uuidToString (some { Low := low2, High := high2 })
        ↔ low1 = low2 ∧ high1 = high2)) ∧
    ∃ out1 tags1 out2 tags2,
      ToV2 T e1 = .ok out1 ∧ out1.DeprecatedTags = some tags1 ∧
      ToV2 T e2 = .ok out2 ∧ out2.DeprecatedTags = some tags2 ∧
      (tags1.lookup "request_id" = tags2.lookup "request_id" ↔
        events.UUID.GetLow (events.HttpStartStop.GetRequestId e1.GetHttpStartStop)
            = events.UUID.GetLow (events.HttpStartStop.GetRequestId e2.GetHttpStartStop) ∧
          events.UUID.GetHigh (events.HttpStartStop.GetRequestId e1.GetHttpStartStop)
            = events.UUID.GetHigh (events.HttpStartStop.GetRequestId e2.GetHttpStartStop)) ∧
      (¬ (events.UUID.GetLow (events.HttpStartStop.GetApplicationId e1.GetHttpStartStop) = 0 ∧
          events.UUID.GetHigh (events.HttpStartStop.GetApplicationId e1.GetHttpStartStop) = 0) →
        ¬ (events.UUID.GetLow (events.HttpStartStop.GetApplicationId e2.GetHttpStartStop) = 0 ∧
          events.UUID.GetHigh (events.HttpStartStop.GetApplicationId e2.GetHttpStartStop) = 0) →
        (out1.SourceId = out2.SourceId ↔
          events.UUID.GetLow (events.HttpStartStop.GetApplicationId e1.GetHttpStartStop)
              = events.UUID.GetLow (events.HttpStartStop.GetApplicationId e2.GetHttpStartStop) ∧
            events.UUID.GetHigh (events.HttpStartStop.GetApplicationId e1.GetHttpStartStop)
              = events.UUID.GetHigh
                (events.HttpStartStop.GetApplicationId e2.GetHttpStartStop))) := by
  obtain ⟨out1, tags1, hok1, ht1, hs1, hq1⟩ := ToV2_HttpStartStop_ids T e1 h1
  obtain ⟨out2, tags2, hok2, ht2, hs2, hq2⟩ := ToV2_HttpStartStop_ids T e2 h2
  refine ⟨fun l1 g1 l2 g2 a b c d => uuidToString_eq_iff l1 g1 l2 g2 a b c d,
    out1, tags1, out2, tags2, hok1, ht1, hok2, ht2, ?_, ?_⟩
  · rw [hq1, hq2, ← uuidToString_eq_iff_getters _ _ hr1 hr2]
    constructor
    · intro hq
      injection hq with hq
      injection hq
    · intro hq
      rw [hq]
  · intro hz1 hz2
    rw [hs1, hs2, convertAppUUID, if_neg hz1, convertAppUUID, if_neg hz2]
    exact uuidToString_eq_iff_getters _ _ ha1 ha2

/-- C20, amended, at the HttpStartStop envelopes of `applicationId = (1, 0)` without
request id and of `applicationId = (2, 0)` with `requestId = (3, 4)`: the `SourceId`s
differ and the `request_id` tags differ. -/
theorem C20_uuid_texts_distinct_witness :
    ∃ out1 tags1 out2 tags2,
      ToV2 schemaTables envHttpApp = .ok out1 ∧ out1.DeprecatedTags = some tags1 ∧
      ToV2 schemaTables envHttpApp2 = .ok out2 ∧ out2.DeprecatedTags = some tags2 ∧
      tags1.lookup "request_id" ≠ tags2.lookup "request_id" ∧
      out1.SourceId ≠ out2.SourceId := by
  obtain ⟨_, out1, tags1, out2, tags2, hok1, ht1, hok2, ht2, hq, hs⟩ :=
    C20_uuid_texts_distinct schemaTables envHttpApp envHttpApp2 (by decide) (by decide)
      (by decide) (by decide) (by decide) (by decide)
  refine ⟨out1, tags1, out2, tags2, hok1, ht1, hok2, ht2, ?_, ?_⟩
  · intro h
    exact absurd (hq.mp h).1 (by decide)
  · intro h
    exact absurd ((hs (by decide) (by decide)).mp h).1 (by decide)

end conversion
